import Mathlib

/-!
Verification development for the `nomad-training-resources` plugin
(`src/nomad_training_resources/schema_packages/schema_package.py`).

The development shallowly embeds the entry-normalization and
cross-reference-resolution core of the schema package: the vocabulary
canonicalizer (`_unique_clean`, `_normalize_enum_list`,
`_normalize_enum_list_client`, `_normalize_free_list`), the identifier
canonicalizer (`_canonicalize_youtube_url`, `_canonicalize_identifier`),
the index mirror synchronizer (`TrainingResource._sync_terms`), the
relation resolver (`TrainingResourceRelation.normalize`) and the
orchestrating entry normalizer (`TrainingResource.normalize`).

Modelling conventions:
* Python strings are Lean `String`s; `None` becomes `Option.none`.
* Python's `str.strip`, `str.lower`, `urllib.parse.urlparse`/`parse_qs`/
  `urlencode` are modelled at the code-point level for the ASCII range
  (these inputs are URLs); percent-decoding of a multi-byte UTF-8
  sequence is modelled byte-per-code-point, which agrees with Python on
  all ASCII data.
* The external search call is an oracle parameter: the outcome of the
  call (a result record, or the message of a raised exception) is passed
  in as an `Except String SearchResult` value; the `try/except` around
  the call becomes a `match` on that value.
* Stateful section mutation becomes explicit state passing on explicit
  record types.
-/

/-- The six ASCII characters Python's `str.strip()` removes (the URL and
vocabulary data handled by this code is ASCII; general Unicode whitespace
is not modelled). -/
def pyIsSpace (c : Char) : Bool :=
  c = ' ' || c = '\t' || c = '\n' || c = '\r' || c = '\x0b' || c = '\x0c'

/-- Python `str.strip()` on a character list: drop leading and trailing
whitespace. -/
def pyStripList (l : List Char) : List Char :=
  ((l.dropWhile pyIsSpace).reverse.dropWhile pyIsSpace).reverse

/-- Python `str.strip()`. -/
def pyStrip (s : String) : String :=
  String.mk (pyStripList s.toList)

/-- Python `str.strip(chars)` for a single strip character (used for
`path.strip("/")`). -/
def pyStripChar (c : Char) (s : String) : String :=
  String.mk (((s.toList.dropWhile (· = c)).reverse.dropWhile (· = c)).reverse)

/-- Python `str.lower()` (ASCII model; host names in this code are ASCII). -/
def pyLower (s : String) : String :=
  String.mk (s.toList.map Char.toLower)

/-- Python `needle in hay` substring test. -/
def pyInAux (n : List Char) : List Char → Bool
  | [] => n.isPrefixOf []
  | c :: t => n.isPrefixOf (c :: t) || pyInAux n t

/-- Python `needle in hay` on strings. -/
def pyIn (needle hay : String) : Bool :=
  pyInAux needle.toList hay.toList

/-- Python `s.startswith(prefix)` (list-based so that proofs can
evaluate it by kernel reduction). -/
def pyStartsWith (s pre : String) : Bool :=
  pre.toList.isPrefixOf s.toList

/-- Python `s.split(sep)` for a single-character separator, on character
lists: splits at every occurrence, keeping empty pieces, like
`"a//b".split("/") == ["a", "", "b"]`. -/
def pySplitCharList (c : Char) : List Char → List (List Char)
  | [] => [[]]
  | x :: t =>
    let rest := pySplitCharList c t
    if x = c then [] :: rest
    else
      match rest with
      | h :: r => (x :: h) :: r
      | [] => [[x]]

/-- Python `s.split(sep)` for a single-character separator. -/
def pySplitChar (c : Char) (s : String) : List String :=
  (pySplitCharList c s.toList).map String.mk

/-- Python `str.replace(old, new)` for single characters (used for
`replace("_", " ")`). -/
def pyReplaceChar (old new : Char) (s : String) : String :=
  String.mk (s.toList.map (fun c => if c = old then new else c))

/-- Python `s.split(sep)[0]` for a single-character separator: everything
before the first occurrence of the separator. -/
def pySplitFirst (sep : Char) (s : String) : String :=
  String.mk (s.toList.takeWhile (· ≠ sep))

/-- Value of a hex digit, accepting both cases (Python percent-decoding). -/
def hexVal (c : Char) : Option Nat :=
  if '0' ≤ c ∧ c ≤ '9' then some (c.toNat - '0'.toNat)
  else if 'a' ≤ c ∧ c ≤ 'f' then some (c.toNat - 'a'.toNat + 10)
  else if 'A' ≤ c ∧ c ≤ 'F' then some (c.toNat - 'A'.toNat + 10)
  else none

/-- Uppercase hex digit of a value below 16 (Python quoting emits
uppercase hex). -/
def hexDigit (n : Nat) : Char :=
  if n < 10 then Char.ofNat ('0'.toNat + n) else Char.ofNat ('A'.toNat + n - 10)

/-- Python `urllib.parse.unquote_plus` on a character list: `+` becomes a
space and `%XX` hex pairs are decoded; an invalid escape is kept
literally.  A decoded byte is mapped directly to the code point of equal
value (Python decodes the byte sequence as UTF-8; the two agree on ASCII
data). -/
def pyUnquotePlusList : List Char → List Char
  | [] => []
  | '+' :: rest => ' ' :: pyUnquotePlusList rest
  | '%' :: a :: b :: rest =>
    match hexVal a, hexVal b with
    | some x, some y => Char.ofNat (16 * x + y) :: pyUnquotePlusList rest
    | _, _ => '%' :: pyUnquotePlusList (a :: b :: rest)
  | c :: rest => c :: pyUnquotePlusList rest

/-- Python `urllib.parse.unquote_plus` on strings. -/
def pyUnquotePlus (s : String) : String :=
  String.mk (pyUnquotePlusList s.toList)

/-- The characters `urllib.parse.quote_plus` never escapes
(`_.-~` and alphanumerics). -/
def pyQuoteSafe (c : Char) : Bool :=
  c.isAlpha || c.isDigit || c = '_' || c = '.' || c = '-' || c = '~'

/-- UTF-8 bytes of one code point (for percent-encoding non-ASCII
characters the way Python's quoting does). -/
def utf8Bytes (c : Char) : List Nat :=
  let n := c.toNat
  if n < 0x80 then [n]
  else if n < 0x800 then [0xC0 + n / 64, 0x80 + n % 64]
  else if n < 0x10000 then [0xE0 + n / 4096, 0x80 + n / 64 % 64, 0x80 + n % 64]
  else [0xF0 + n / 262144, 0x80 + n / 4096 % 64, 0x80 + n / 64 % 64, 0x80 + n % 64]

/-- Python `urllib.parse.quote_plus` of one character. -/
def pyQuotePlusChar (c : Char) : List Char :=
  if c = ' ' then ['+']
  else if pyQuoteSafe c then [c]
  else (utf8Bytes c).foldr (fun b acc => '%' :: hexDigit (b / 16) :: hexDigit (b % 16) :: acc) []

/-- Python `urllib.parse.quote_plus` on strings. -/
def pyQuotePlus (s : String) : String :=
  String.mk ((s.toList.map pyQuotePlusChar).flatten)

/-- Python `urllib.parse.urlencode({key: value})` for the single-pair
dictionaries used by `_canonicalize_youtube_url`. -/
def pyUrlencode1 (key value : String) : String :=
  pyQuotePlus key ++ "=" ++ pyQuotePlus value

/-- The fields of `urllib.parse.urlparse` that
`_canonicalize_youtube_url` reads. -/
structure UrlParts where
  netloc : String
  path : String
  query : String
deriving Repr, DecidableEq

/-- Python `urllib.parse.urlparse` restricted to the absolute `http://`
or `https://` URLs this code feeds it (the scheme is guaranteed by the
preceding branch of `_canonicalize_youtube_url`): the authority runs to
the first `/`, `?` or `#`; the path to the first `?` or `#`; the query to
the first `#`; the fragment is dropped.  Python's `;params` split of the
last path segment is not modelled (the code never reads `u.params`). -/
def pyUrlparseHttp (s : String) : UrlParts :=
  let rest :=
    if pyStartsWith s "https://" then s.drop 8
    else if pyStartsWith s "http://" then s.drop 7
    else s
  let cs := rest.toList
  let netloc := cs.takeWhile (fun c => c ≠ '/' && c ≠ '?' && c ≠ '#')
  let r1 := cs.dropWhile (fun c => c ≠ '/' && c ≠ '?' && c ≠ '#')
  let path := r1.takeWhile (fun c => c ≠ '?' && c ≠ '#')
  let r2 := r1.dropWhile (fun c => c ≠ '?' && c ≠ '#')
  let query :=
    match r2 with
    | '?' :: r3 => r3.takeWhile (· ≠ '#')
    | _ => []
  ⟨String.mk netloc, String.mk path, String.mk query⟩

/-- One `name=value` field of a query string, as Python
`urllib.parse.parse_qsl` handles it with default arguments: empty fields
and fields without `=` or with an empty raw value are skipped; names and
values are `unquote_plus`-decoded. -/
def pyParseQsField (field : String) : Option (String × String) :=
  if field = "" then none
  else
    let cs := field.toList
    let name := cs.takeWhile (· ≠ '=')
    match cs.dropWhile (· ≠ '=') with
    | '=' :: value =>
      if value = [] then none
      else some (pyUnquotePlus (String.mk name), pyUnquotePlus (String.mk value))
    | _ => none

/-- Python `urllib.parse.parse_qs` as an association list preserving the
order of occurrence (the dictionary's per-key value lists are recovered
by `qsGet`). -/
def pyParseQs (query : String) : List (String × String) :=
  (pySplitChar '&' query).filterMap pyParseQsField

/-- `qs[key]` of the `parse_qs` dictionary: all values for a key, in
order; `key in qs` holds exactly when this list is non-empty. -/
def qsGet (qs : List (String × String)) (key : String) : List String :=
  (qs.filter (fun p => p.1 = key)).map (fun p => p.2)

/-! ## Vocabulary canonicalizer (schema_package.py lines 88-123) -/

/-- Loop body of `_unique_clean`: `out` is the accumulated result list.
Each value is stripped; values that become empty, and values already in
`out`, are dropped (Python's `v is None` guard is vacuous here because
the modelled element type is `str`). -/
def _unique_clean_go : List String → List String → List String
  | out, [] => out
  | out, v :: rest =>
    let v' := pyStrip v
    if v' = "" then _unique_clean_go out rest
    else if v' ∈ out then _unique_clean_go out rest
    else _unique_clean_go (out ++ [v']) rest

/-- `_unique_clean(values)`: strip entries, drop blanks, de-duplicate
preserving first-seen order; `values or []` maps `None` to the empty
list. -/
def _unique_clean (values : Option (List String)) : List String :=
  _unique_clean_go [] (values.getD [])

/-- `_normalize_enum_list(values)`: the full-defaulting vocabulary
canonicalizer.  Empty after cleaning becomes `["Undefined"]`; an exact
`"Undefined"` entry next to other values is dropped. -/
def _normalize_enum_list (values : Option (List String)) : List String :=
  let cleaned := _unique_clean values
  if cleaned = [] then ["Undefined"]
  else if "Undefined" ∈ cleaned ∧ cleaned.length > 1 then
    cleaned.filter (fun v => v ≠ "Undefined")
  else cleaned

/-- `_normalize_enum_list_client(values)`: the light-defaulting
vocabulary canonicalizer.  Empty after cleaning stays `[]`; a lone
`"Undefined"` becomes `[]`; `"Undefined"` next to other values is
dropped. -/
def _normalize_enum_list_client (values : Option (List String)) : List String :=
  let cleaned := _unique_clean values
  if cleaned = [] then []
  else if "Undefined" ∈ cleaned then
    if cleaned.length = 1 then []
    else cleaned.filter (fun v => v ≠ "Undefined")
  else cleaned

/-- `_normalize_free_list(values)`: the reduced variant for free-text
fields. -/
def _normalize_free_list (values : Option (List String)) : List String :=
  _unique_clean values

/-! ## Identifier canonicalizer (schema_package.py lines 126-204) -/

/-- `_YOUTUBE_VIDEO_ID_RE.match(s)`: the full-string 11-character
`[A-Za-z0-9_-]` pattern. -/
def _YOUTUBE_VIDEO_ID_MATCH (s : String) : Bool :=
  s.length = 11 && s.toList.all (fun c => c.isAlpha || c.isDigit || c = '_' || c = '-')

/-- Lines 136-146: accept an explicit `http(s)` scheme, prepend
`https://` to the known scheme-less video-hosting prefixes, and reject
anything else. -/
def _withScheme (s : String) : Option String :=
  if pyStartsWith s "http://" || pyStartsWith s "https://" then some s
  else if pyStartsWith s "youtu.be/" || pyStartsWith s "www.youtube.com/"
      || pyStartsWith s "youtube.com/" || pyStartsWith s "m.youtube.com/"
      || pyStartsWith s "music.youtube.com/" then
    some ("https://" ++ s)
  else none

/-- `(x or "").strip() or None` on a string already known to be a `str`:
`some` of the stripped value when non-empty. -/
def strippedOrNone (v : String) : Option String :=
  let t := pyStrip v
  if t = "" then none else some t

/-- Lines 164-166: the playlist id, when a `list` query parameter with a
non-blank first value exists. -/
def ytPlaylistId (qs : List (String × String)) : Option String :=
  match qsGet qs "list" with
  | [] => none
  | v :: _ => strippedOrNone v

/-- Lines 168-179: the raw video id before validation — the `v` query
parameter, else the first `youtu.be` path segment, else the segment
after a `shorts`/`embed`/`live`/`v` path head. -/
def ytVideoIdRaw (host path : String) (qs : List (String × String)) : Option String :=
  let fromQuery :=
    match qsGet qs "v" with
    | [] => none
    | v :: _ => strippedOrNone v
  match fromQuery with
  | some v => some v
  | none =>
    let fromShortHost :=
      if pyIn "youtu.be" host then
        if pyStripChar '/' path = "" then none
        else strippedOrNone ((pySplitChar '/' (pyStripChar '/' path)).headD "")
      else none
    match fromShortHost with
    | some v => some v
    | none =>
      match (pySplitChar '/' path).filter (fun p => p ≠ "") with
      | p0 :: p1 :: _ =>
        if p0 = "shorts" || p0 = "embed" || p0 = "live" || p0 = "v" then
          strippedOrNone p1
        else none
      | _ => none

/-- Lines 168-182: the extracted video id after validation against
`_YOUTUBE_VIDEO_ID_RE`. -/
def ytVideoId (host path : String) (qs : List (String × String)) : Option String :=
  match ytVideoIdRaw host path qs with
  | some v => if _YOUTUBE_VIDEO_ID_MATCH v then some v else none
  | none => none

/-- Line 185: the canonical video form. -/
def watchUrl (videoId : String) : String :=
  "https://www.youtube.com/watch?" ++ pyUrlencode1 "v" videoId

/-- Line 188: the canonical playlist form. -/
def playlistUrl (playlistId : String) : String :=
  "https://www.youtube.com/playlist?" ++ pyUrlencode1 "list" playlistId

/-- Lowercased authority of the parsed URL (line 153). -/
def ytHost (s : String) : String :=
  pyLower (pyUrlparseHttp s).netloc

/-- Path of the parsed URL (`u.path or ""`, line 162). -/
def ytPath (s : String) : String :=
  (pyUrlparseHttp s).path

/-- Parsed query of the URL (line 161). -/
def ytQs (s : String) : List (String × String) :=
  pyParseQs (pyUrlparseHttp s).query

/-- Lines 148-190: host check, extraction and canonical-form selection,
for a URL that already carries its scheme. -/
def ytCore (s : String) : Option String :=
  let host := ytHost s
  if host = "" then none
  else if !(pyIn "youtube.com" host || pyIn "youtu.be" host) then none
  else
    match ytVideoId host (ytPath s) (ytQs s) with
    | some vid => some (watchUrl vid)
    | none =>
      match ytPlaylistId (ytQs s) with
      | some pl => some (playlistUrl pl)
      | none => none

/-- `_canonicalize_youtube_url(url)` (lines 129-190).  The `urlparse`
call cannot raise on the inputs this code builds, so the
`try/except: return None` around it needs no fallible branch. -/
def _canonicalize_youtube_url (url : Option String) : Option String :=
  match url with
  | none => none
  | some u =>
    let s := pyStrip u
    if s = "" then none
    else
      match _withScheme s with
      | none => none
      | some s' => ytCore s'

/-- `_canonicalize_identifier(url)` (lines 193-204). -/
def _canonicalize_identifier (url : Option String) : Option String :=
  match url with
  | none => none
  | some u =>
    let s := pyStrip u
    if s = "" then some s
    else
      match _canonicalize_youtube_url (some s) with
      | some yt => some yt
      | none => some s

/-! ## Relation resolver (schema_package.py lines 242-389) -/

/-- One hit of the external search result, with the fields the resolver
reads: `entry_id`, `upload_id` (always present on a real hit),
`entry_name` and the `metadata.entry_name` fallback (possibly absent). -/
structure SearchHit where
  entry_id : String
  entry_name : Option String
  metadata_entry_name : Option String
  upload_id : String
deriving Repr, DecidableEq

/-- The search response: `result.pagination.total` and `result.data`
(`getattr(result.pagination, "total", 0) or 0` makes `total` a `Nat`). -/
structure SearchResult where
  total : Nat
  data : List SearchHit
deriving Repr, DecidableEq

/-- The `TrainingResourceRelation` section's quantities.  A
`target_resource` reference value is modelled by its proxy string. -/
structure TrainingResourceRelation where
  relation_type : Option String
  target_resource : Option String
  target_identifier : Option String
  resolution_status : Option String
  resolution_message : Option String
deriving Repr, DecidableEq

/-- The candidate line `- {entry_id}: {label}` of the ambiguous-result
message (lines 348-355): `entry_name`, falling back to
`metadata.entry_name` when falsy, falling back to `<no entry_name>`. -/
def hitLine (hit : SearchHit) : String :=
  let en :=
    if (hit.entry_name.getD "") = "" then hit.metadata_entry_name
    else hit.entry_name
  let label := if (en.getD "") = "" then "<no entry_name>" else en.getD ""
  "- " ++ hit.entry_id ++ ": " ++ label

/-- The `(showing {shown} of {total})` suffix of the ambiguous-result
message (lines 357-358). -/
def ambiguousSuffix (shown total : Nat) : String :=
  if total > shown then
    " (showing " ++ toString shown ++ " of " ++ toString total ++ ")"
  else ""

/-- The full ambiguous-result message (lines 360-365). -/
def ambiguousMessage (result : SearchResult) : String :=
  "Multiple TrainingResources found with that identifier URL. "
    ++ "Please select the correct one with the pen."
    ++ "\nMatches" ++ ambiguousSuffix (result.data.map hitLine).length result.total
    ++ ":\n" ++ String.intercalate "\n" (result.data.map hitLine)

/-- `TrainingResourceRelation.normalize(archive, logger)` (lines
296-389).  `isClient` is `isinstance(archive.m_context, ClientContext)`;
`lookup` is the outcome of the `nomad.search.search` call for this
relation's canonicalized identifier — `.error e` when the call raises an
exception whose string form is `e`.  `result.data[0]` on an empty list
raises `IndexError("list index out of range")`, which the surrounding
`except` converts like any other lookup failure.  Logger calls have no
effect on the modelled state. -/
def TrainingResourceRelation.normalize (isClient : Bool)
    (lookup : Except String SearchResult)
    (r : TrainingResourceRelation) : TrainingResourceRelation :=
  if r.target_resource.isSome then
    { r with
      resolution_status := some "manual_reference"
      resolution_message := some "Target resource selected manually." }
  else
    let target_id := (_canonicalize_identifier r.target_identifier).getD ""
    if target_id = "" then
      { r with
        resolution_status := some "identifier_missing"
        resolution_message := some
          "No target selected yet. Use the pen or paste an identifier URL and Save." }
    else if isClient then
      { r with
        resolution_status := some "skipped_client_context"
        resolution_message := some
          ("Auto-resolution runs during server-side processing. Click Save and "
            ++ "check the entry again after processing.") }
    else
      match lookup with
      | .error e =>
        { r with
          resolution_status := some "error"
          resolution_message := some ("Resolution failed: " ++ e) }
      | .ok result =>
        if result.total = 0 then
          { r with
            resolution_status := some "identifier_not_found"
            resolution_message := some
              ("No TrainingResource found with that identifier URL. "
                ++ "Either create the missing resource entry, or use the pen to select an entry.") }
        else if result.total > 1 then
          { r with
            resolution_status := some "identifier_ambiguous"
            resolution_message := some (ambiguousMessage result) }
        else
          match result.data with
          | [] =>
            { r with
              resolution_status := some "error"
              resolution_message := some "Resolution failed: list index out of range" }
          | hit :: _ =>
            { r with
              target_resource := some
                ("../uploads/" ++ hit.upload_id ++ "/archive/" ++ hit.entry_id ++ "#/data")
              resolution_status := some "resolved_from_identifier"
              resolution_message := some
                ("Resolved identifier to TrainingResource entry_id=" ++ hit.entry_id ++ ".") }

/-! ## TrainingResource entry and archive state (lines 392-623) -/

/-- `InstructionalMethodTerm` wrapper record. -/
structure InstructionalMethodTerm where
  value : String
deriving Repr, DecidableEq

/-- `EducationalLevelTerm` wrapper record. -/
structure EducationalLevelTerm where
  value : String
deriving Repr, DecidableEq

/-- `LearningResourceTypeTerm` wrapper record. -/
structure LearningResourceTypeTerm where
  value : String
deriving Repr, DecidableEq

/-- `FormatTerm` wrapper record. -/
structure FormatTerm where
  value : String
deriving Repr, DecidableEq

/-- `LicenseTerm` wrapper record. -/
structure LicenseTerm where
  value : String
deriving Repr, DecidableEq

/-- `SubjectTerm` wrapper record. -/
structure SubjectTerm where
  value : String
deriving Repr, DecidableEq

/-- `KeywordTerm` wrapper record. -/
structure KeywordTerm where
  value : String
deriving Repr, DecidableEq

/-- The `TrainingResource` section's quantities and subsections.
Quantities that `normalize` neither reads nor writes (`language`,
`date_created`, `date_modified`) are omitted.  Unset list quantities are
`none`; `normalize` assigns concrete lists. -/
structure TrainingResource where
  entry_name : Option String
  identifier : Option String
  title : Option String
  description : Option String
  instructional_method : Option (List String)
  educational_level : Option (List String)
  learning_resource_type : Option (List String)
  format : Option (List String)
  license : Option (List String)
  subject : Option (List String)
  keyword : Option (List String)
  tags : Option (List String)
  instructional_method_terms : List InstructionalMethodTerm
  educational_level_terms : List EducationalLevelTerm
  learning_resource_type_terms : List LearningResourceTypeTerm
  format_terms : List FormatTerm
  license_terms : List LicenseTerm
  subject_terms : List SubjectTerm
  keyword_terms : List KeywordTerm
  relations : List TrainingResourceRelation
  message : Option String
deriving Repr, DecidableEq

/-- `archive.metadata` fields the normalizer touches. -/
structure ArchiveMetadata where
  entry_name : Option String
deriving Repr, DecidableEq

/-- The archive-side state the normalizer reads and writes:
`archive.metadata` (absent when falsy), whether `archive.data` is this
section (`_sync_entry_name`'s identity check), and the
`archive.results.eln.tags` side channel — `none` models an absent
`results`/`eln` layer, which the tags step creates on demand. -/
structure ArchiveState where
  metadata : Option ArchiveMetadata
  dataIsSelf : Bool
  results_eln_tags : Option (List String)
deriving Repr, DecidableEq

/-! ## Entry normalizer (schema_package.py lines 524-620) -/

/-- `TrainingResource._sync_terms` (lines 524-537): rebuild every mirror
subsection from the distinct cleaned values of its canonical field. -/
def TrainingResource._sync_terms (e : TrainingResource) : TrainingResource :=
  { e with
    instructional_method_terms :=
      (_unique_clean e.instructional_method).map InstructionalMethodTerm.mk
    educational_level_terms :=
      (_unique_clean e.educational_level).map EducationalLevelTerm.mk
    learning_resource_type_terms :=
      (_unique_clean e.learning_resource_type).map LearningResourceTypeTerm.mk
    format_terms := (_unique_clean e.format).map FormatTerm.mk
    license_terms := (_unique_clean e.license).map LicenseTerm.mk
    subject_terms := (_unique_clean e.subject).map SubjectTerm.mk
    keyword_terms := (_unique_clean e.keyword).map KeywordTerm.mk }

/-- `TrainingResource._sync_entry_name(archive)` (lines 539-548):
nothing when the archive has no metadata or this section is not
`archive.data`; a truthy `entry_name` is propagated outward; an unset
`entry_name` is derived from a truthy `archive.metadata.entry_name` by
dropping everything from the first `.` and replacing `_` with spaces. -/
def TrainingResource._sync_entry_name (a : ArchiveState) (e : TrainingResource) :
    ArchiveState × TrainingResource :=
  match a.metadata with
  | none => (a, e)
  | some md =>
    if !a.dataIsSelf then (a, e)
    else if (e.entry_name.getD "") ≠ "" then
      ({ a with metadata := some { md with entry_name := e.entry_name } }, e)
    else if e.entry_name = none ∧ (md.entry_name.getD "") ≠ "" then
      let derived := pyReplaceChar '_' ' ' (pySplitFirst '.' (md.entry_name.getD ""))
      (a, { e with entry_name := some derived })
    else (a, e)

/-- `TrainingResource._has_meaningful_content_for_defaulting` (lines
550-565). -/
def TrainingResource._has_meaningful_content_for_defaulting (e : TrainingResource) : Bool :=
  pyStrip (e.identifier.getD "") ≠ "" ||
  pyStrip (e.entry_name.getD "") ≠ "" ||
  pyStrip (e.title.getD "") ≠ "" ||
  pyStrip (e.description.getD "") ≠ "" ||
  _unique_clean e.keyword ≠ [] ||
  _unique_clean e.tags ≠ [] ||
  e.relations ≠ []

/-- The tag-merge loop (lines 580-584): clean the existing side-channel
tags and append each entry tag not already present. -/
def mergeTags (existing : Option (List String)) (tags : List String) : List String :=
  tags.foldl (fun acc t => if t ∈ acc then acc else acc ++ [t]) (_unique_clean existing)

/-- Lines 574-584: assign the cleaned `tags` and, when non-empty, merge
them into `archive.results.eln.tags`, creating the `results`/`eln`
layers when absent. -/
def tagsStep (a : ArchiveState) (e : TrainingResource) : ArchiveState × TrainingResource :=
  let e := { e with tags := some (_unique_clean e.tags) }
  if (e.tags.getD []) ≠ [] then
    ({ a with results_eln_tags := some (mergeTags a.results_eln_tags (e.tags.getD [])) }, e)
  else (a, e)

/-- Lines 586-603: choose the defaulting policy and apply the vocabulary
canonicalizer to the six controlled-vocabulary fields. -/
def vocabStep (isClient : Bool) (e : TrainingResource) : TrainingResource :=
  let fill_defaults :=
    !isClient && TrainingResource._has_meaningful_content_for_defaulting e
  if fill_defaults then
    { e with
      instructional_method := some (_normalize_enum_list e.instructional_method)
      educational_level := some (_normalize_enum_list e.educational_level)
      learning_resource_type := some (_normalize_enum_list e.learning_resource_type)
      format := some (_normalize_enum_list e.format)
      license := some (_normalize_enum_list e.license)
      subject := some (_normalize_enum_list e.subject) }
  else
    { e with
      instructional_method := some (_normalize_enum_list_client e.instructional_method)
      educational_level := some (_normalize_enum_list_client e.educational_level)
      learning_resource_type := some (_normalize_enum_list_client e.learning_resource_type)
      format := some (_normalize_enum_list_client e.format)
      license := some (_normalize_enum_list_client e.license)
      subject := some (_normalize_enum_list_client e.subject) }

/-- The per-relation loop (lines 609-614): relation `i` is normalized
with the outcome `lookup i` of its own search call.  The surrounding
`try/except` isolates a failing relation from its siblings; the modelled
`TrainingResourceRelation.normalize` is total, so the handler has
nothing left to catch. -/
def normalizeRelations (isClient : Bool) (lookup : Nat → Except String SearchResult) :
    Nat → List TrainingResourceRelation → List TrainingResourceRelation
  | _, [] => []
  | i, r :: rs =>
    r.normalize isClient (lookup i) :: normalizeRelations isClient lookup (i + 1) rs

/-- Lines 570-584 of `TrainingResource.normalize`: the steps preceding
the defaulting-policy decision — entry-name synchronization, identifier
canonicalization and the tags side-channel update. -/
def preSteps (a : ArchiveState) (e : TrainingResource) :
    ArchiveState × TrainingResource :=
  let p := TrainingResource._sync_entry_name a e
  let e1 := { p.2 with identifier := _canonicalize_identifier p.2.identifier }
  tagsStep p.1 e1

/-- `TrainingResource.normalize(archive, logger)` (lines 567-620).
`isClient` is `isinstance(archive.m_context, ClientContext)`; `lookup i`
is the outcome of the search call made by the `i`-th relation.  The
`logger.info` call has no effect on the modelled state. -/
def TrainingResource.normalize (isClient : Bool)
    (lookup : Nat → Except String SearchResult)
    (a : ArchiveState) (e : TrainingResource) : ArchiveState × TrainingResource :=
  let q := preSteps a e
  let e4 := vocabStep isClient q.2
  let e5 := { e4 with keyword := some (_normalize_free_list e4.keyword) }
  let e6 := TrainingResource._sync_terms e5
  let e7 := { e6 with relations := normalizeRelations isClient lookup 0 e6.relations }
  let msg := "Indexed " ++ toString e7.keyword_terms.length ++ " keywords."
  (q.1, { e7 with message := some msg })

/-! ## Concrete example data (mirroring `tests/schema_packages/test_relations.py`) -/

/-- A relation awaiting identifier resolution, as in
`test_relation_resolution_success`. -/
def exampleRelation : TrainingResourceRelation :=
  ⟨none, none, some "http://target.com", none, none⟩

/-- A one-hit search outcome: `total = 1`,
`data = [{entry_id: "entry1", upload_id: "upload1"}]`. -/
def exampleLookup : Nat → Except String SearchResult :=
  fun _ => .ok ⟨1, [⟨"entry1", none, none, "upload1"⟩]⟩

/-- An otherwise empty entry carrying one resolvable relation. -/
def exampleEntry : TrainingResource :=
  ⟨none, none, none, none, none, none, none, none, none, none, none, none,
   [], [], [], [], [], [], [], [exampleRelation], none⟩

/-- A server-side archive state: metadata present with no entry name,
`archive.data` is the entry, no tags side channel yet. -/
def exampleArchive : ArchiveState := ⟨some ⟨none⟩, true, none⟩

/-! ## Lemmas: stripping -/

theorem dropWhile_pyIsSpace_idem (l : List Char) :
    (l.dropWhile pyIsSpace).dropWhile pyIsSpace = l.dropWhile pyIsSpace := by
  induction l with
  | nil => rfl
  | cons c t ih =>
    by_cases hc : pyIsSpace c
    · simp [List.dropWhile_cons, hc, ih]
    · simp [List.dropWhile_cons, hc]

theorem head?_dropWhile_not (p : Char → Bool) (l : List Char) :
    ∀ c ∈ (l.dropWhile p).head?, ¬ p c := by
  induction l with
  | nil => simp
  | cons a t ih =>
    by_cases hp : p a
    · simpa [List.dropWhile_cons, hp] using ih
    · intro c hc
      simp only [List.dropWhile_cons, hp] at hc
      simp only [if_false, Bool.false_eq_true, List.head?_cons, Option.mem_def,
        Option.some.injEq] at hc
      exact hc ▸ hp

theorem dropWhile_eq_self_of_head (p : Char → Bool) (l : List Char)
    (h : ∀ c ∈ l.head?, ¬ p c) : l.dropWhile p = l := by
  cases l with
  | nil => rfl
  | cons c t =>
    have hc : ¬ p c := h c rfl
    simp [List.dropWhile_cons, hc]

theorem pyStripList_idem (l : List Char) : pyStripList (pyStripList l) = pyStripList l := by
  unfold pyStripList
  set m := l.dropWhile pyIsSpace with hm
  set n := m.reverse.dropWhile pyIsSpace with hn
  have hdw : n.reverse.dropWhile pyIsSpace = n.reverse := by
    apply dropWhile_eq_self_of_head
    intro c hc
    rw [List.head?_reverse] at hc
    rcases List.dropWhile_suffix (l := m.reverse) (p := pyIsSpace) with ⟨u, hu⟩
    have hne : n ≠ [] := by
      intro h0
      rw [h0] at hc
      exact absurd hc (by simp)
    have h1 : n.getLast? = m.reverse.getLast? := by
      rw [← hu]
      exact (List.getLast?_append_of_ne_nil u hne).symm
    have h2 : m.reverse.getLast? = m.head? := by
      have h3 := List.head?_reverse m.reverse
      rw [List.reverse_reverse] at h3
      exact h3.symm
    rw [h1, h2] at hc
    rw [hm] at hc
    exact head?_dropWhile_not pyIsSpace l c hc
  rw [hdw, List.reverse_reverse]
  rw [hn, dropWhile_pyIsSpace_idem]

theorem pyStrip_idem (s : String) : pyStrip (pyStrip s) = pyStrip s := by
  unfold pyStrip
  exact congrArg String.mk (pyStripList_idem s.toList)

theorem pyStripList_eq_nil_iff (l : List Char) :
    pyStripList l = [] ↔ ∀ c ∈ l, pyIsSpace c := by
  unfold pyStripList
  constructor
  · intro h c hc
    have h1 : (l.dropWhile pyIsSpace).reverse.dropWhile pyIsSpace = [] := by
      simpa using h
    rw [List.dropWhile_eq_nil_iff] at h1
    have h2 : ∀ x ∈ l.dropWhile pyIsSpace, pyIsSpace x := by
      intro x hx
      exact h1 x (List.mem_reverse.mpr hx)
    have h3 : l.dropWhile pyIsSpace = [] := by
      rw [← dropWhile_pyIsSpace_idem l]
      exact List.dropWhile_eq_nil_iff.mpr h2
    rw [List.dropWhile_eq_nil_iff] at h3
    exact h3 c hc
  · intro h
    have h1 : l.dropWhile pyIsSpace = [] := List.dropWhile_eq_nil_iff.mpr h
    simp [h1]

theorem pyStrip_eq_empty_iff (s : String) : pyStrip s = "" ↔ ∀ c ∈ s.toList, pyIsSpace c := by
  constructor
  · intro h
    have h1 : pyStripList s.toList = [] := congrArg String.toList h
    exact (pyStripList_eq_nil_iff _).mp h1
  · intro h
    have h1 : pyStripList s.toList = [] := (pyStripList_eq_nil_iff _).mpr h
    unfold pyStrip
    rw [h1]

theorem pyStrip_ne_empty_of_head (s : String) (c : Char) (t : List Char)
    (hs : s.toList = c :: t) (hc : ¬ pyIsSpace c) : pyStrip s ≠ "" := by
  intro h
  rw [pyStrip_eq_empty_iff] at h
  exact hc (h c (by rw [hs]; exact List.mem_cons_self c t))

/-! ## Lemmas: `_unique_clean` -/

theorem unique_clean_go_prop (l : List String) :
    ∀ out, (∀ v ∈ out, pyStrip v = v ∧ v ≠ "") →
    ∀ v ∈ _unique_clean_go out l, pyStrip v = v ∧ v ≠ "" := by
  induction l with
  | nil => intro out hout v hv; exact hout v hv
  | cons w rest ih =>
    intro out hout v hv
    rw [_unique_clean_go] at hv
    by_cases h1 : pyStrip w = ""
    · rw [if_pos h1] at hv
      exact ih out hout v hv
    · rw [if_neg h1] at hv
      by_cases h2 : pyStrip w ∈ out
      · rw [if_pos h2] at hv
        exact ih out hout v hv
      · rw [if_neg h2] at hv
        refine ih (out ++ [pyStrip w]) ?_ v hv
        intro x hx
        rcases List.mem_append.mp hx with hx | hx
        · exact hout x hx
        · have hxw : x = pyStrip w := by simpa using hx
          subst hxw
          exact ⟨pyStrip_idem w, h1⟩

theorem unique_clean_go_nodup (l : List String) :
    ∀ out, out.Nodup → (_unique_clean_go out l).Nodup := by
  induction l with
  | nil => intro out hout; exact hout
  | cons w rest ih =>
    intro out hout
    rw [_unique_clean_go]
    by_cases h1 : pyStrip w = ""
    · rw [if_pos h1]; exact ih out hout
    · rw [if_neg h1]
      by_cases h2 : pyStrip w ∈ out
      · rw [if_pos h2]; exact ih out hout
      · rw [if_neg h2]
        refine ih (out ++ [pyStrip w]) ?_
        rw [List.nodup_append]
        refine ⟨hout, List.nodup_singleton _, ?_⟩
        intro a ha hb
        have hab : a = pyStrip w := by simpa using hb
        subst hab
        exact h2 ha

theorem unique_clean_go_fixed (l : List String) :
    ∀ out, (∀ v ∈ l, pyStrip v = v ∧ v ≠ "") → l.Nodup →
    (∀ v ∈ l, v ∉ out) → _unique_clean_go out l = out ++ l := by
  induction l with
  | nil => intro out _ _ _; simp [_unique_clean_go]
  | cons w rest ih =>
    intro out hl hnd hdisj
    have hw := hl w (List.mem_cons_self w rest)
    rw [_unique_clean_go, hw.1, if_neg hw.2, if_neg (hdisj w (List.mem_cons_self w rest))]
    rw [ih (out ++ [w]) (fun v hv => hl v (List.mem_cons_of_mem w hv))
        (List.Nodup.of_cons hnd) ?_]
    · simp
    · intro v hv hmem
      rcases List.mem_append.mp hmem with h | h
      · exact hdisj v (List.mem_cons_of_mem w hv) h
      · have hvw : v = w := by simpa using h
        subst hvw
        exact (List.nodup_cons.mp hnd).1 hv

theorem _unique_clean_prop (o : Option (List String)) :
    ∀ v ∈ _unique_clean o, pyStrip v = v ∧ v ≠ "" := by
  unfold _unique_clean
  exact unique_clean_go_prop _ [] (by simp)

theorem _unique_clean_nodup (o : Option (List String)) : (_unique_clean o).Nodup := by
  unfold _unique_clean
  exact unique_clean_go_nodup _ [] List.nodup_nil

theorem _unique_clean_fixed (l : List String)
    (hp : ∀ v ∈ l, pyStrip v = v ∧ v ≠ "") (hnd : l.Nodup) :
    _unique_clean (some l) = l := by
  unfold _unique_clean
  simpa using unique_clean_go_fixed l [] hp hnd (by simp)

theorem _unique_clean_idem (o : Option (List String)) :
    _unique_clean (some (_unique_clean o)) = _unique_clean o :=
  _unique_clean_fixed _ (_unique_clean_prop o) (_unique_clean_nodup o)

/-! ## Lemmas: enum-list canonicalizers -/

theorem undefined_clean : pyStrip "Undefined" = "Undefined" ∧ ("Undefined" : String) ≠ "" := by
  constructor
  · decide
  · decide

theorem filter_not_undefined_prop (c : List String)
    (hp : ∀ v ∈ c, pyStrip v = v ∧ v ≠ "") :
    ∀ v ∈ c.filter (fun v => v ≠ "Undefined"), pyStrip v = v ∧ v ≠ "" := by
  intro v hv
  exact hp v (List.mem_of_mem_filter hv)

theorem filter_not_undefined_not_mem (c : List String) :
    "Undefined" ∉ c.filter (fun v => v ≠ "Undefined") := by
  intro h
  have := (List.mem_filter.mp h).2
  simp at this

theorem filter_not_undefined_ne_nil (c : List String) (hnd : c.Nodup)
    (hmem : "Undefined" ∈ c) (hlen : c.length > 1) :
    c.filter (fun v => v ≠ "Undefined") ≠ [] := by
  intro h
  have hall : ∀ v ∈ c, v = "Undefined" := by
    intro v hv
    by_contra hne
    have : v ∈ c.filter (fun v => v ≠ "Undefined") :=
      List.mem_filter.mpr ⟨hv, by simpa using hne⟩
    rw [h] at this
    exact absurd this (List.not_mem_nil v)
  match c, hlen with
  | a :: b :: t, _ =>
    have ha : a = "Undefined" := hall a (List.mem_cons_self _ _)
    have hb : b = "Undefined" := hall b (List.mem_cons_of_mem _ (List.mem_cons_self _ _))
    have : a ∉ b :: t := (List.nodup_cons.mp hnd).1
    exact this (by rw [ha, hb]; exact List.mem_cons_self _ _)

theorem _normalize_enum_list_clean (o : Option (List String)) :
    (∀ v ∈ _normalize_enum_list o, pyStrip v = v ∧ v ≠ "") ∧
    (_normalize_enum_list o).Nodup := by
  unfold _normalize_enum_list
  by_cases h0 : _unique_clean o = []
  · rw [if_pos h0]
    refine ⟨?_, List.nodup_singleton _⟩
    intro v hv
    have : v = "Undefined" := by simpa using hv
    subst this
    exact undefined_clean
  · rw [if_neg h0]
    by_cases h1 : "Undefined" ∈ _unique_clean o ∧ (_unique_clean o).length > 1
    · rw [if_pos h1]
      exact ⟨filter_not_undefined_prop _ (_unique_clean_prop o),
        List.Nodup.filter _ (_unique_clean_nodup o)⟩
    · rw [if_neg h1]
      exact ⟨_unique_clean_prop o, _unique_clean_nodup o⟩

theorem _unique_clean_of_enum (o : Option (List String)) :
    _unique_clean (some (_normalize_enum_list o)) = _normalize_enum_list o :=
  _unique_clean_fixed _ (_normalize_enum_list_clean o).1 (_normalize_enum_list_clean o).2

theorem _normalize_enum_list_idem (o : Option (List String)) :
    _normalize_enum_list (some (_normalize_enum_list o)) = _normalize_enum_list o := by
  by_cases h0 : _unique_clean o = []
  · have hval : _normalize_enum_list o = ["Undefined"] := by
      unfold _normalize_enum_list
      rw [if_pos h0]
    rw [hval]
    have huc : _unique_clean (some ["Undefined"]) = ["Undefined"] := by
      rw [← hval, _unique_clean_of_enum, hval]
    unfold _normalize_enum_list
    rw [huc]
    simp
  · unfold _normalize_enum_list
    rw [if_neg h0]
    by_cases h1 : "Undefined" ∈ _unique_clean o ∧ (_unique_clean o).length > 1
    · rw [if_pos h1]
      set f := (_unique_clean o).filter (fun v => v ≠ "Undefined") with hf
      have hucf : _unique_clean (some f) = f := by
        have := _unique_clean_of_enum o
        unfold _normalize_enum_list at this
        rw [if_neg h0, if_pos h1] at this
        exact this
      have hfne : f ≠ [] :=
        filter_not_undefined_ne_nil _ (_unique_clean_nodup o) h1.1 h1.2
      rw [hucf, if_neg hfne, if_neg ?_]
      intro hcon
      exact filter_not_undefined_not_mem _ hcon.1
    · rw [if_neg h1]
      have huco : _unique_clean (some (_unique_clean o)) = _unique_clean o :=
        _unique_clean_idem o
      rw [huco, if_neg h0, if_neg h1]

theorem _normalize_enum_list_client_clean (o : Option (List String)) :
    (∀ v ∈ _normalize_enum_list_client o, pyStrip v = v ∧ v ≠ "") ∧
    (_normalize_enum_list_client o).Nodup := by
  unfold _normalize_enum_list_client
  by_cases h0 : _unique_clean o = []
  · rw [if_pos h0]
    exact ⟨by simp, List.nodup_nil⟩
  · rw [if_neg h0]
    by_cases h1 : "Undefined" ∈ _unique_clean o
    · rw [if_pos h1]
      by_cases h2 : (_unique_clean o).length = 1
      · rw [if_pos h2]
        exact ⟨by simp, List.nodup_nil⟩
      · rw [if_neg h2]
        exact ⟨filter_not_undefined_prop _ (_unique_clean_prop o),
          List.Nodup.filter _ (_unique_clean_nodup o)⟩
    · rw [if_neg h1]
      exact ⟨_unique_clean_prop o, _unique_clean_nodup o⟩

theorem _unique_clean_of_enum_client (o : Option (List String)) :
    _unique_clean (some (_normalize_enum_list_client o)) = _normalize_enum_list_client o :=
  _unique_clean_fixed _ (_normalize_enum_list_client_clean o).1
    (_normalize_enum_list_client_clean o).2

theorem _normalize_enum_list_client_not_mem (o : Option (List String)) :
    "Undefined" ∉ _normalize_enum_list_client o := by
  unfold _normalize_enum_list_client
  by_cases h0 : _unique_clean o = []
  · rw [if_pos h0]; simp
  · rw [if_neg h0]
    by_cases h1 : "Undefined" ∈ _unique_clean o
    · rw [if_pos h1]
      by_cases h2 : (_unique_clean o).length = 1
      · rw [if_pos h2]; simp
      · rw [if_neg h2]; exact filter_not_undefined_not_mem _
    · rw [if_neg h1]; exact h1

theorem _normalize_enum_list_client_idem (o : Option (List String)) :
    _normalize_enum_list_client (some (_normalize_enum_list_client o)) =
      _normalize_enum_list_client o := by
  by_cases h0 : _normalize_enum_list_client o = []
  · rw [h0]
    unfold _normalize_enum_list_client
    simp [_unique_clean]
    rw [show _unique_clean_go [] [] = [] from rfl]
    simp
  · have hmem := _normalize_enum_list_client_not_mem o
    have key := _unique_clean_of_enum_client o
    generalize hX : _normalize_enum_list_client o = X at h0 hmem key ⊢
    unfold _normalize_enum_list_client
    rw [key, if_neg h0, if_neg hmem]

/-! ## Lemmas: relation resolver -/

theorem rel_normalize_manual (c : Bool) (l : Except String SearchResult)
    (r : TrainingResourceRelation) (h : r.target_resource.isSome) :
    r.normalize c l =
      { r with
        resolution_status := some "manual_reference"
        resolution_message := some "Target resource selected manually." } := by
  unfold TrainingResourceRelation.normalize
  rw [if_pos h]

theorem rel_normalize_no_lookup (c : Bool) (l l' : Except String SearchResult)
    (r : TrainingResourceRelation) (h : r.target_resource.isSome) :
    r.normalize c l = r.normalize c l' := by
  rw [rel_normalize_manual c l r h, rel_normalize_manual c l' r h]

theorem rel_normalize_success (l : Except String SearchResult)
    (r : TrainingResourceRelation) (hit : SearchHit) (hres : l = .ok ⟨1, [hit]⟩)
    (htr : r.target_resource = none)
    (hid : (_canonicalize_identifier r.target_identifier).getD "" ≠ "") :
    r.normalize false l =
      { r with
        target_resource := some
          ("../uploads/" ++ hit.upload_id ++ "/archive/" ++ hit.entry_id ++ "#/data")
        resolution_status := some "resolved_from_identifier"
        resolution_message := some
          ("Resolved identifier to TrainingResource entry_id=" ++ hit.entry_id ++ ".") } := by
  unfold TrainingResourceRelation.normalize
  rw [if_neg (by simp [htr]), hres]
  simp only [hid, if_neg, Bool.false_eq_true, if_false]
  norm_num

theorem rel_normalize_error (c : Bool) (e : String)
    (r : TrainingResourceRelation)
    (htr : r.target_resource = none)
    (hid : (_canonicalize_identifier r.target_identifier).getD "" ≠ "")
    (hc : c = false) :
    r.normalize c (.error e) =
      { r with
        resolution_status := some "error"
        resolution_message := some ("Resolution failed: " ++ e) } := by
  subst hc
  unfold TrainingResourceRelation.normalize
  rw [if_neg (by simp [htr])]
  simp only [hid, if_neg, Bool.false_eq_true, if_false]

theorem rel_normalize_missing (c : Bool) (l : Except String SearchResult)
    (r : TrainingResourceRelation)
    (htr : r.target_resource = none)
    (hid : (_canonicalize_identifier r.target_identifier).getD "" = "") :
    r.normalize c l =
      { r with
        resolution_status := some "identifier_missing"
        resolution_message := some
          "No target selected yet. Use the pen or paste an identifier URL and Save." } := by
  unfold TrainingResourceRelation.normalize
  rw [if_neg (by simp [htr])]
  simp only [hid, if_pos]

theorem rel_normalize_client (l : Except String SearchResult)
    (r : TrainingResourceRelation)
    (htr : r.target_resource = none)
    (hid : (_canonicalize_identifier r.target_identifier).getD "" ≠ "") :
    r.normalize true l =
      { r with
        resolution_status := some "skipped_client_context"
        resolution_message := some
          ("Auto-resolution runs during server-side processing. Click Save and "
            ++ "check the entry again after processing.") } := by
  unfold TrainingResourceRelation.normalize
  rw [if_neg (by simp [htr])]
  simp [hid]

theorem rel_normalize_not_found (res : SearchResult)
    (r : TrainingResourceRelation)
    (htr : r.target_resource = none)
    (hid : (_canonicalize_identifier r.target_identifier).getD "" ≠ "")
    (h0 : res.total = 0) :
    r.normalize false (.ok res) =
      { r with
        resolution_status := some "identifier_not_found"
        resolution_message := some
          ("No TrainingResource found with that identifier URL. "
            ++ "Either create the missing resource entry, or use the pen to select an entry.") } := by
  unfold TrainingResourceRelation.normalize
  rw [if_neg (by simp [htr])]
  simp only [hid, if_neg, Bool.false_eq_true, if_false, h0, if_pos]

theorem rel_normalize_ambiguous (res : SearchResult)
    (r : TrainingResourceRelation)
    (htr : r.target_resource = none)
    (hid : (_canonicalize_identifier r.target_identifier).getD "" ≠ "")
    (h0 : ¬ res.total = 0) (h1 : res.total > 1) :
    r.normalize false (.ok res) =
      { r with
        resolution_status := some "identifier_ambiguous"
        resolution_message := some (ambiguousMessage res) } := by
  unfold TrainingResourceRelation.normalize
  rw [if_neg (by simp [htr])]
  simp only [hid, if_neg, Bool.false_eq_true, if_false, h0, h1, if_pos]

theorem rel_normalize_empty_data (res : SearchResult)
    (r : TrainingResourceRelation)
    (htr : r.target_resource = none)
    (hid : (_canonicalize_identifier r.target_identifier).getD "" ≠ "")
    (h0 : ¬ res.total = 0) (h1 : ¬ res.total > 1) (hd : res.data = []) :
    r.normalize false (.ok res) =
      { r with
        resolution_status := some "error"
        resolution_message := some "Resolution failed: list index out of range" } := by
  unfold TrainingResourceRelation.normalize
  rw [if_neg (by simp [htr])]
  simp only [hid, if_neg, Bool.false_eq_true, if_false, h0, h1, hd]

theorem rel_normalize_resolved (res : SearchResult)
    (r : TrainingResourceRelation) (hit : SearchHit) (rest : List SearchHit)
    (htr : r.target_resource = none)
    (hid : (_canonicalize_identifier r.target_identifier).getD "" ≠ "")
    (h0 : ¬ res.total = 0) (h1 : ¬ res.total > 1) (hd : res.data = hit :: rest) :
    r.normalize false (.ok res) =
      { r with
        target_resource := some
          ("../uploads/" ++ hit.upload_id ++ "/archive/" ++ hit.entry_id ++ "#/data")
        resolution_status := some "resolved_from_identifier"
        resolution_message := some
          ("Resolved identifier to TrainingResource entry_id=" ++ hit.entry_id ++ ".") } := by
  unfold TrainingResourceRelation.normalize
  rw [if_neg (by simp [htr])]
  simp only [hid, if_neg, Bool.false_eq_true, if_false, h0, h1, hd]

theorem rel_normalize_cases (c : Bool) (l : Except String SearchResult)
    (r : TrainingResourceRelation) :
    (r.target_resource.isSome ∧ r.normalize c l =
      { r with
        resolution_status := some "manual_reference"
        resolution_message := some "Target resource selected manually." })
    ∨ (r.target_resource = none ∧ ∃ st msg, st ≠ "resolved_from_identifier" ∧
        ∀ r' : TrainingResourceRelation, r'.target_resource = none →
          r'.target_identifier = r.target_identifier →
          r'.normalize c l =
            { r' with resolution_status := some st, resolution_message := some msg })
    ∨ (r.target_resource = none ∧ ∃ hit : SearchHit, r.normalize c l =
        { r with
          target_resource := some
            ("../uploads/" ++ hit.upload_id ++ "/archive/" ++ hit.entry_id ++ "#/data")
          resolution_status := some "resolved_from_identifier"
          resolution_message := some
            ("Resolved identifier to TrainingResource entry_id=" ++ hit.entry_id ++ ".") }) := by
  by_cases h1 : r.target_resource.isSome
  · exact Or.inl ⟨h1, rel_normalize_manual c l r h1⟩
  · have htr : r.target_resource = none := Option.not_isSome_iff_eq_none.mp h1
    by_cases h2 : (_canonicalize_identifier r.target_identifier).getD "" = ""
    · refine Or.inr (Or.inl ⟨htr, "identifier_missing",
        "No target selected yet. Use the pen or paste an identifier URL and Save.",
        by decide, ?_⟩)
      intro r' htr' hti'
      exact rel_normalize_missing c l r' htr' (by rw [hti']; exact h2)
    · cases c with
      | true =>
        refine Or.inr (Or.inl ⟨htr, "skipped_client_context",
          "Auto-resolution runs during server-side processing. Click Save and "
            ++ "check the entry again after processing.", by decide, ?_⟩)
        intro r' htr' hti'
        exact rel_normalize_client l r' htr' (by rw [hti']; exact h2)
      | false =>
        cases l with
        | error e =>
          refine Or.inr (Or.inl ⟨htr, "error", "Resolution failed: " ++ e, by decide, ?_⟩)
          intro r' htr' hti'
          exact rel_normalize_error false e r' htr' (by rw [hti']; exact h2) rfl
        | ok res =>
          by_cases h0 : res.total = 0
          · refine Or.inr (Or.inl ⟨htr, "identifier_not_found",
              "No TrainingResource found with that identifier URL. "
                ++ "Either create the missing resource entry, or use the pen to select an entry.",
              by decide, ?_⟩)
            intro r' htr' hti'
            exact rel_normalize_not_found res r' htr' (by rw [hti']; exact h2) h0
          · by_cases hgt : res.total > 1
            · refine Or.inr (Or.inl ⟨htr, "identifier_ambiguous", ambiguousMessage res,
                by decide, ?_⟩)
              intro r' htr' hti'
              exact rel_normalize_ambiguous res r' htr' (by rw [hti']; exact h2) h0 hgt
            · cases hd : res.data with
              | nil =>
                refine Or.inr (Or.inl ⟨htr, "error",
                  "Resolution failed: list index out of range", by decide, ?_⟩)
                intro r' htr' hti'
                exact rel_normalize_empty_data res r' htr' (by rw [hti']; exact h2) h0 hgt hd
              | cons hit rest =>
                exact Or.inr (Or.inr ⟨htr, hit,
                  rel_normalize_resolved res r hit rest htr h2 h0 hgt hd⟩)

theorem rel_normalize_target_inv (c : Bool) (l : Except String SearchResult)
    (r : TrainingResourceRelation)
    (h : (r.normalize c l).target_resource ≠ none) :
    (r.normalize c l).resolution_status = some "manual_reference" ∨
    (r.normalize c l).resolution_status = some "resolved_from_identifier" := by
  rcases rel_normalize_cases c l r with ⟨_, heq⟩ | ⟨htr, st, msg, _, hall⟩ | ⟨_, hit, heq⟩
  · rw [heq]
    exact Or.inl rfl
  · rw [hall r htr rfl] at h
    exact absurd htr h
  · rw [heq]
    exact Or.inr rfl

theorem rel_normalize_pass2 (c : Bool) (l : Except String SearchResult)
    (r : TrainingResourceRelation) :
    ((r.normalize c l).normalize c l).target_resource = (r.normalize c l).target_resource ∧
    ((r.normalize c l).normalize c l).resolution_status =
      (if (r.normalize c l).resolution_status = some "resolved_from_identifier"
        then some "manual_reference" else (r.normalize c l).resolution_status) := by
  rcases rel_normalize_cases c l r with ⟨hsome, heq⟩ | ⟨htr, st, msg, hne, hall⟩ |
    ⟨htr, hit, heq⟩
  · rw [heq, rel_normalize_manual c l _ (by simpa using hsome)]
    refine ⟨rfl, ?_⟩
    simp
  · have h1 := hall r htr rfl
    have h2 := hall { r with resolution_status := some st, resolution_message := some msg }
      (by simpa using htr) rfl
    rw [h1, h2]
    refine ⟨rfl, ?_⟩
    simp [hne]
  · rw [heq, rel_normalize_manual c l _ (by simp)]
    refine ⟨rfl, ?_⟩
    simp

/-! ## Lemmas: the per-relation loop -/

theorem normalizeRelations_length (c : Bool) (lookup : Nat → Except String SearchResult)
    (rs : List TrainingResourceRelation) :
    ∀ i, (normalizeRelations c lookup i rs).length = rs.length := by
  induction rs with
  | nil => intro i; rfl
  | cons r rest ih =>
    intro i
    rw [normalizeRelations]
    simp [ih (i + 1)]

theorem normalizeRelations_get? (c : Bool) (lookup : Nat → Except String SearchResult)
    (rs : List TrainingResourceRelation) :
    ∀ i j, (normalizeRelations c lookup i rs).get? j =
      (rs.get? j).map (fun r => r.normalize c (lookup (i + j))) := by
  induction rs with
  | nil => intro i j; cases j <;> rfl
  | cons r rest ih =>
    intro i j
    cases j with
    | zero => rfl
    | succ j' =>
      rw [normalizeRelations]
      show (normalizeRelations c lookup (i + 1) rest).get? j' = _
      rw [ih (i + 1) j']
      have : i + 1 + j' = i + (j' + 1) := by omega
      rw [this]
      rfl

theorem normalizeRelations_pass2 (c : Bool) (lookup : Nat → Except String SearchResult)
    (rs : List TrainingResourceRelation) :
    ∀ i, List.Forall₂
      (fun r1 r2 =>
        r2.target_resource = r1.target_resource ∧
        r2.resolution_status =
          (if r1.resolution_status = some "resolved_from_identifier"
            then some "manual_reference" else r1.resolution_status))
      (normalizeRelations c lookup i rs)
      (normalizeRelations c lookup i (normalizeRelations c lookup i rs)) := by
  induction rs with
  | nil => intro i; exact List.Forall₂.nil
  | cons r rest ih =>
    intro i
    rw [normalizeRelations]
    rw [show normalizeRelations c lookup i
        (r.normalize c (lookup i) :: normalizeRelations c lookup (i + 1) rest) =
      (r.normalize c (lookup i)).normalize c (lookup i) ::
        normalizeRelations c lookup (i + 1) (normalizeRelations c lookup (i + 1) rest)
      from rfl]
    exact List.Forall₂.cons (rel_normalize_pass2 c (lookup i) r) (ih (i + 1))

/-! ## Lemmas: entry-normalizer steps -/

theorem tagsStep_snd (a : ArchiveState) (x : TrainingResource) :
    (tagsStep a x).2 = { x with tags := some (_unique_clean x.tags) } := by
  unfold tagsStep
  dsimp only
  split <;> rfl

theorem tagsStep_fst_metadata (a : ArchiveState) (x : TrainingResource) :
    (tagsStep a x).1.metadata = a.metadata := by
  unfold tagsStep
  dsimp only
  split <;> rfl

theorem tagsStep_fst_dataIsSelf (a : ArchiveState) (x : TrainingResource) :
    (tagsStep a x).1.dataIsSelf = a.dataIsSelf := by
  unfold tagsStep
  dsimp only
  split <;> rfl

theorem sync_snd_shape (a : ArchiveState) (e : TrainingResource) :
    (TrainingResource._sync_entry_name a e).2 =
      { e with entry_name := (TrainingResource._sync_entry_name a e).2.entry_name } := by
  unfold TrainingResource._sync_entry_name
  cases a.metadata with
  | none => rfl
  | some md =>
    dsimp only
    by_cases h1 : (!a.dataIsSelf) = true
    · rw [if_pos h1]
    · rw [if_neg h1]
      by_cases h2 : e.entry_name.getD "" ≠ ""
      · rw [if_pos h2]
      · rw [if_neg h2]
        by_cases h3 : e.entry_name = none ∧ md.entry_name.getD "" ≠ ""
        · rw [if_pos h3]
        · rw [if_neg h3]

theorem sync_fst_dataIsSelf (a : ArchiveState) (e : TrainingResource) :
    (TrainingResource._sync_entry_name a e).1.dataIsSelf = a.dataIsSelf := by
  unfold TrainingResource._sync_entry_name
  cases a.metadata with
  | none => rfl
  | some md =>
    dsimp only
    by_cases h1 : (!a.dataIsSelf) = true
    · rw [if_pos h1]
    · rw [if_neg h1]
      by_cases h2 : e.entry_name.getD "" ≠ ""
      · rw [if_pos h2]
      · rw [if_neg h2]
        by_cases h3 : e.entry_name = none ∧ md.entry_name.getD "" ≠ ""
        · rw [if_pos h3]
        · rw [if_neg h3]

theorem preSteps_snd (a : ArchiveState) (e : TrainingResource) :
    (preSteps a e).2 =
      { e with
        entry_name := (TrainingResource._sync_entry_name a e).2.entry_name
        identifier := _canonicalize_identifier e.identifier
        tags := some (_unique_clean e.tags) } := by
  unfold preSteps
  rw [tagsStep_snd]
  rw [show (TrainingResource._sync_entry_name a e).2.identifier = e.identifier from by
    rw [sync_snd_shape]]
  rw [show ({ (TrainingResource._sync_entry_name a e).2 with
      identifier := _canonicalize_identifier e.identifier } : TrainingResource).tags
      = e.tags from by rw [sync_snd_shape]]
  rw [sync_snd_shape]

theorem preSteps_fst_metadata (a : ArchiveState) (e : TrainingResource) :
    (preSteps a e).1.metadata = (TrainingResource._sync_entry_name a e).1.metadata := by
  unfold preSteps
  rw [tagsStep_fst_metadata]

theorem preSteps_fst_dataIsSelf (a : ArchiveState) (e : TrainingResource) :
    (preSteps a e).1.dataIsSelf = a.dataIsSelf := by
  unfold preSteps
  rw [tagsStep_fst_dataIsSelf, sync_fst_dataIsSelf]

/-- The defaulting policy applied to one controlled-vocabulary field:
`_normalize_enum_list` under full defaulting, `_normalize_enum_list_client`
under light defaulting (lines 590-603). -/
def policyList (full : Bool) (o : Option (List String)) : List String :=
  if full then _normalize_enum_list o else _normalize_enum_list_client o

/-- The `fill_defaults` decision of line 588, evaluated on the state the
code sees at that point (after the steps of `preSteps`). -/
def fillDefaults (isClient : Bool) (a : ArchiveState) (e : TrainingResource) : Bool :=
  !isClient && TrainingResource._has_meaningful_content_for_defaulting (preSteps a e).2

theorem _unique_clean_of_policy (f : Bool) (o : Option (List String)) :
    _unique_clean (some (policyList f o)) = policyList f o := by
  cases f
  · simp [policyList, _unique_clean_of_enum_client]
  · simp [policyList, _unique_clean_of_enum]

theorem policyList_idem (f : Bool) (o : Option (List String)) :
    policyList f (some (policyList f o)) = policyList f o := by
  cases f
  · simp [policyList, _normalize_enum_list_client_idem]
  · simp [policyList, _normalize_enum_list_idem]

theorem normalize_fst (c : Bool) (lookup : Nat → Except String SearchResult)
    (a : ArchiveState) (e : TrainingResource) :
    (TrainingResource.normalize c lookup a e).1 = (preSteps a e).1 := rfl

theorem policyList_true (o : Option (List String)) :
    policyList true o = _normalize_enum_list o := rfl

theorem policyList_false (o : Option (List String)) :
    policyList false o = _normalize_enum_list_client o := rfl

theorem vocabStep_eq (c : Bool) (x : TrainingResource) :
    vocabStep c x =
      { x with
        instructional_method := some (policyList
          (!c && x._has_meaningful_content_for_defaulting) x.instructional_method)
        educational_level := some (policyList
          (!c && x._has_meaningful_content_for_defaulting) x.educational_level)
        learning_resource_type := some (policyList
          (!c && x._has_meaningful_content_for_defaulting) x.learning_resource_type)
        format := some (policyList
          (!c && x._has_meaningful_content_for_defaulting) x.format)
        license := some (policyList
          (!c && x._has_meaningful_content_for_defaulting) x.license)
        subject := some (policyList
          (!c && x._has_meaningful_content_for_defaulting) x.subject) } := by
  unfold vocabStep
  dsimp only
  split
  · next h => simp only [h, policyList_true]
  · next h =>
      have h' : (!c && x._has_meaningful_content_for_defaulting) = false := by
        simpa using h
      simp only [h', policyList_false]

theorem normalize_snd (c : Bool) (lookup : Nat → Except String SearchResult)
    (a : ArchiveState) (e : TrainingResource) :
    (TrainingResource.normalize c lookup a e).2 =
      { e with
        entry_name := (TrainingResource._sync_entry_name a e).2.entry_name
        identifier := _canonicalize_identifier e.identifier
        tags := some (_unique_clean e.tags)
        instructional_method := some (policyList (fillDefaults c a e) e.instructional_method)
        educational_level := some (policyList (fillDefaults c a e) e.educational_level)
        learning_resource_type :=
          some (policyList (fillDefaults c a e) e.learning_resource_type)
        format := some (policyList (fillDefaults c a e) e.format)
        license := some (policyList (fillDefaults c a e) e.license)
        subject := some (policyList (fillDefaults c a e) e.subject)
        keyword := some (_unique_clean e.keyword)
        instructional_method_terms :=
          (policyList (fillDefaults c a e) e.instructional_method).map
            InstructionalMethodTerm.mk
        educational_level_terms :=
          (policyList (fillDefaults c a e) e.educational_level).map EducationalLevelTerm.mk
        learning_resource_type_terms :=
          (policyList (fillDefaults c a e) e.learning_resource_type).map
            LearningResourceTypeTerm.mk
        format_terms := (policyList (fillDefaults c a e) e.format).map FormatTerm.mk
        license_terms := (policyList (fillDefaults c a e) e.license).map LicenseTerm.mk
        subject_terms := (policyList (fillDefaults c a e) e.subject).map SubjectTerm.mk
        keyword_terms := (_unique_clean e.keyword).map KeywordTerm.mk
        relations := normalizeRelations c lookup 0 e.relations
        message := some
          ("Indexed " ++ toString ((_unique_clean e.keyword).map KeywordTerm.mk).length
            ++ " keywords.") } := by
  simp only [TrainingResource.normalize]
  rw [vocabStep_eq]
  dsimp only
  simp only [TrainingResource._sync_terms]
  simp only [_unique_clean_of_policy, _unique_clean_idem, _normalize_free_list, fillDefaults]
  rw [preSteps_snd]

/-! ## Lemmas: shapes of the canonical video-hosting forms -/

theorem ytVideoId_valid (host path : String) (qs : List (String × String)) (v : String)
    (h : ytVideoId host path qs = some v) : _YOUTUBE_VIDEO_ID_MATCH v = true := by
  unfold ytVideoId at h
  split at h
  · next w heq =>
    by_cases hm : _YOUTUBE_VIDEO_ID_MATCH w = true
    · rw [if_pos hm] at h
      have hwv : w = v := by simpa using h
      exact hwv ▸ hm
    · rw [if_neg hm] at h
      exact absurd h (by simp)
  · exact absurd h (by simp)

theorem ytCore_shape (s : String) (r : String) (h : ytCore s = some r) :
    (∃ v, _YOUTUBE_VIDEO_ID_MATCH v = true ∧ r = watchUrl v) ∨ ∃ p, r = playlistUrl p := by
  unfold ytCore at h
  dsimp only at h
  split at h
  · exact absurd h (by simp)
  · split at h
    · exact absurd h (by simp)
    · split at h
      · next vid heq =>
        left
        exact ⟨vid, ytVideoId_valid _ _ _ _ heq, by simpa using h.symm⟩
      · split at h
        · next pl heq =>
          right
          exact ⟨pl, by simpa using h.symm⟩
        · exact absurd h (by simp)

theorem pyStrip_append_ne (p x : String) (hp : pyStrip p ≠ "") : pyStrip (p ++ x) ≠ "" := by
  intro hcon
  rw [pyStrip_eq_empty_iff] at hcon
  apply hp
  rw [pyStrip_eq_empty_iff]
  intro ch hch
  apply hcon
  show ch ∈ (p ++ x).toList
  have hdata : (p ++ x).toList = p.toList ++ x.toList := String.data_append p x
  rw [hdata]
  exact List.mem_append_left _ hch

theorem watchUrl_strip_ne (v : String) : pyStrip (watchUrl v) ≠ "" := by
  unfold watchUrl
  exact pyStrip_append_ne _ _ (by decide)

theorem playlistUrl_strip_ne (p : String) : pyStrip (playlistUrl p) ≠ "" := by
  unfold playlistUrl
  exact pyStrip_append_ne _ _ (by decide)

theorem yt_url_strip_ne (o : Option String) (r : String)
    (h : _canonicalize_youtube_url o = some r) : pyStrip r ≠ "" := by
  unfold _canonicalize_youtube_url at h
  cases o with
  | none => exact absurd h (by simp)
  | some u =>
    dsimp only at h
    split at h
    · exact absurd h (by simp)
    · split at h
      · exact absurd h (by simp)
      · next s' heq =>
        rcases ytCore_shape s' r h with ⟨v, _, rfl⟩ | ⟨p, rfl⟩
        · exact watchUrl_strip_ne v
        · exact playlistUrl_strip_ne p

theorem canon_id_blank (o : Option String) :
    (pyStrip ((_canonicalize_identifier o).getD "") = "") ↔ (pyStrip (o.getD "") = "") := by
  cases o with
  | none =>
    unfold _canonicalize_identifier
    exact Iff.rfl
  | some u =>
    unfold _canonicalize_identifier
    dsimp only
    by_cases h1 : pyStrip u = ""
    · rw [if_pos h1]
      simp only [Option.getD_some, h1]
      exact iff_of_true (by decide) trivial
    · rw [if_neg h1]
      cases hyt : _canonicalize_youtube_url (some (pyStrip u)) with
      | some yt =>
        simp only [Option.getD_some]
        exact iff_of_false (yt_url_strip_ne _ _ hyt) h1
      | none =>
        simp only [Option.getD_some]
        rw [pyStrip_idem]

/-! ## Lemmas: second-pass stability of `_sync_entry_name` -/

theorem sync_pass2_snd (a a' : ArchiveState) (e e' : TrainingResource)
    (hen : e'.entry_name = (TrainingResource._sync_entry_name a e).2.entry_name)
    (hmd : a'.metadata = (TrainingResource._sync_entry_name a e).1.metadata)
    (hds : a'.dataIsSelf = a.dataIsSelf) :
    (TrainingResource._sync_entry_name a' e').2 = e' := by
  unfold TrainingResource._sync_entry_name at hen hmd ⊢
  cases hcase : a.metadata with
  | none =>
    rw [hcase] at hen hmd
    dsimp only at hen hmd
    rw [hmd, hcase]
  | some md =>
    rw [hcase] at hen hmd
    dsimp only at hen hmd
    by_cases hb : (!a.dataIsSelf) = true
    · rw [if_pos hb] at hen hmd
      dsimp only at hen hmd
      rw [hmd, hcase]
      dsimp only
      rw [if_pos (by rw [hds]; exact hb)]
    · rw [if_neg hb] at hen hmd
      by_cases h2 : e.entry_name.getD "" ≠ ""
      · rw [if_pos h2] at hen hmd
        dsimp only at hen hmd
        rw [hmd]
        dsimp only
        rw [if_neg (by rw [hds]; exact hb)]
        rw [if_pos (by rw [hen]; exact h2)]
      · rw [if_neg h2] at hen hmd
        by_cases h3 : e.entry_name = none ∧ md.entry_name.getD "" ≠ ""
        · rw [if_pos h3] at hen hmd
          dsimp only at hen hmd
          rw [hmd, hcase]
          dsimp only
          rw [if_neg (by rw [hds]; exact hb)]
          by_cases h4 : e'.entry_name.getD "" ≠ ""
          · rw [if_pos h4]
          · rw [if_neg h4]
            rw [if_neg ?_]
            intro hcon
            rw [hen] at hcon
            exact absurd hcon.1 (by simp)
        · rw [if_neg h3] at hen hmd
          dsimp only at hen hmd
          rw [hmd, hcase]
          dsimp only
          rw [if_neg (by rw [hds]; exact hb)]
          rw [if_neg (by rw [hen]; exact h2)]
          rw [if_neg ?_]
          intro hcon
          rw [hen] at hcon
          exact h3 hcon

/-! ## Lemmas: stability of the defaulting decision across passes -/

theorem meaningful_congr (x y : TrainingResource)
    (h1 : (pyStrip (x.identifier.getD "") = "") ↔ (pyStrip (y.identifier.getD "") = ""))
    (h2 : x.entry_name = y.entry_name)
    (h3 : x.title = y.title)
    (h4 : x.description = y.description)
    (h5 : _unique_clean x.keyword = _unique_clean y.keyword)
    (h6 : _unique_clean x.tags = _unique_clean y.tags)
    (h7 : x.relations = [] ↔ y.relations = []) :
    x._has_meaningful_content_for_defaulting = y._has_meaningful_content_for_defaulting := by
  have hiff : (x._has_meaningful_content_for_defaulting = true) ↔
      (y._has_meaningful_content_for_defaulting = true) := by
    unfold TrainingResource._has_meaningful_content_for_defaulting
    simp only [Bool.or_eq_true, decide_eq_true_eq]
    have h1' : (pyStrip (x.identifier.getD "") ≠ "") ↔ (pyStrip (y.identifier.getD "") ≠ "") :=
      not_congr h1
    have h7' : (x.relations ≠ []) ↔ (y.relations ≠ []) := not_congr h7
    rw [h2, h3, h4, h5, h6, h1', h7']
  cases hx : x._has_meaningful_content_for_defaulting <;>
    cases hy : y._has_meaningful_content_for_defaulting <;> simp_all

theorem preSteps_pass2_snd (c : Bool) (lookup : Nat → Except String SearchResult)
    (a : ArchiveState) (e : TrainingResource) :
    (preSteps (TrainingResource.normalize c lookup a e).1
        (TrainingResource.normalize c lookup a e).2).2 =
      { (TrainingResource.normalize c lookup a e).2 with
        identifier := _canonicalize_identifier
          (TrainingResource.normalize c lookup a e).2.identifier
        tags := some (_unique_clean (TrainingResource.normalize c lookup a e).2.tags) } := by
  have hsync : (TrainingResource._sync_entry_name (TrainingResource.normalize c lookup a e).1
      (TrainingResource.normalize c lookup a e).2).2 = (TrainingResource.normalize c lookup a e).2 :=
    sync_pass2_snd a _ e _ (by rw [normalize_snd])
      (by rw [normalize_fst, preSteps_fst_metadata])
      (by rw [normalize_fst, preSteps_fst_dataIsSelf])
  rw [preSteps_snd, hsync]

theorem fillDefaults_pass2 (c : Bool) (lookup : Nat → Except String SearchResult)
    (a : ArchiveState) (e : TrainingResource) :
    fillDefaults c (TrainingResource.normalize c lookup a e).1
      (TrainingResource.normalize c lookup a e).2 = fillDefaults c a e := by
  unfold fillDefaults
  rw [preSteps_pass2_snd]
  congr 1
  apply meaningful_congr
  · dsimp only
    rw [normalize_snd]
    dsimp only
    rw [preSteps_snd]
    dsimp only
    exact canon_id_blank _
  · dsimp only
    rw [normalize_snd, preSteps_snd]
  · dsimp only
    rw [normalize_snd, preSteps_snd]
  · dsimp only
    rw [normalize_snd, preSteps_snd]
  · dsimp only
    rw [normalize_snd, preSteps_snd]
    dsimp only
    rw [_unique_clean_idem]
  · dsimp only
    rw [normalize_snd, preSteps_snd]
    dsimp only
    simp [_unique_clean_idem]
  · dsimp only
    rw [normalize_snd, preSteps_snd]
    dsimp only
    constructor
    · intro h
      have hlen := normalizeRelations_length c lookup e.relations 0
      rw [h] at hlen
      exact List.length_eq_zero.mp hlen.symm
    · intro h
      rw [h]
      rfl

theorem normalize_pass2_snd (c : Bool) (lookup : Nat → Except String SearchResult)
    (a : ArchiveState) (e : TrainingResource) :
    (TrainingResource.normalize c lookup (TrainingResource.normalize c lookup a e).1
        (TrainingResource.normalize c lookup a e).2).2 =
      { (TrainingResource.normalize c lookup a e).2 with
        identifier := _canonicalize_identifier
          (TrainingResource.normalize c lookup a e).2.identifier
        relations := normalizeRelations c lookup 0
          (TrainingResource.normalize c lookup a e).2.relations } := by
  have hsync : (TrainingResource._sync_entry_name (TrainingResource.normalize c lookup a e).1
      (TrainingResource.normalize c lookup a e).2).2 = (TrainingResource.normalize c lookup a e).2 :=
    sync_pass2_snd a _ e _ (by rw [normalize_snd])
      (by rw [normalize_fst, preSteps_fst_metadata])
      (by rw [normalize_fst, preSteps_fst_dataIsSelf])
  rw [normalize_snd c lookup (TrainingResource.normalize c lookup a e).1
    (TrainingResource.normalize c lookup a e).2]
  rw [hsync, fillDefaults_pass2]
  rw [normalize_snd c lookup a e]
  dsimp only
  simp only [policyList_idem, _unique_clean_idem]

/-! ## Lemmas: identifier pass-through and canonical-form selection -/

theorem canon_passthrough (s : String)
    (h : _canonicalize_youtube_url (some (pyStrip s)) = none) :
    _canonicalize_identifier (some s) = some (pyStrip s) := by
  unfold _canonicalize_identifier
  dsimp only
  by_cases h1 : pyStrip s = ""
  · rw [if_pos h1]
  · rw [if_neg h1, h]

theorem canon_yt_via_core (u s : String)
    (h1 : pyStrip u ≠ "") (h2 : _withScheme (pyStrip u) = some s) :
    _canonicalize_youtube_url (some u) = ytCore s := by
  unfold _canonicalize_youtube_url
  dsimp only
  rw [if_neg h1, h2]

theorem ytCore_watch (s v : String)
    (hfam : (pyIn "youtube.com" (ytHost s) || pyIn "youtu.be" (ytHost s)) = true)
    (hvid : ytVideoId (ytHost s) (ytPath s) (ytQs s) = some v) :
    ytCore s = some (watchUrl v) := by
  unfold ytCore
  dsimp only
  rw [if_neg ?hne, if_neg ?hfam', hvid]
  case hne =>
    intro h0
    rw [h0] at hfam
    exact absurd hfam (by decide)
  case hfam' =>
    simp [hfam]

theorem ytCore_no_video (s : String)
    (hfam : (pyIn "youtube.com" (ytHost s) || pyIn "youtu.be" (ytHost s)) = true)
    (hvid : ytVideoId (ytHost s) (ytPath s) (ytQs s) = none) :
    ytCore s =
      (match ytPlaylistId (ytQs s) with
        | some pl => some (playlistUrl pl)
        | none => none) := by
  unfold ytCore
  dsimp only
  rw [if_neg ?hne, if_neg ?hfam', hvid]
  case hne =>
    intro h0
    rw [h0] at hfam
    exact absurd hfam (by decide)
  case hfam' =>
    simp [hfam]

theorem watchUrl_ne_playlistUrl (v p : String) : watchUrl v ≠ playlistUrl p := by
  intro h
  have h2 := congrArg (fun s : String => s.data[24]?) h
  simp only [watchUrl, playlistUrl] at h2
  rw [show ("https://www.youtube.com/watch?" ++ pyUrlencode1 "v" v).data =
      "https://www.youtube.com/watch?".data ++ (pyUrlencode1 "v" v).data from
      String.data_append _ _,
    show ("https://www.youtube.com/playlist?" ++ pyUrlencode1 "list" p).data =
      "https://www.youtube.com/playlist?".data ++ (pyUrlencode1 "list" p).data from
      String.data_append _ _] at h2
  rw [List.getElem?_append_left (by decide), List.getElem?_append_left (by decide)] at h2
  exact absurd h2 (by decide)

theorem ytCore_playlist_no_video (s p : String)
    (h : ytCore s = some (playlistUrl p)) :
    ytVideoId (ytHost s) (ytPath s) (ytQs s) = none := by
  unfold ytCore at h
  dsimp only at h
  split at h
  · exact absurd h (by simp)
  · split at h
    · exact absurd h (by simp)
    · split at h
      · next vid heq =>
        have : watchUrl vid = playlistUrl p := by simpa using h
        exact absurd this (watchUrl_ne_playlistUrl vid p)
      · next heq => exact heq

/-! ## Lemmas: the normalizer ignores incoming mirror lists -/

theorem sync_snd_entry_name_congr (a : ArchiveState) (x y : TrainingResource)
    (h : x.entry_name = y.entry_name) :
    (TrainingResource._sync_entry_name a x).2.entry_name =
      (TrainingResource._sync_entry_name a y).2.entry_name := by
  unfold TrainingResource._sync_entry_name
  cases a.metadata with
  | none => exact h
  | some md =>
    dsimp only
    by_cases hb : (!a.dataIsSelf) = true
    · rw [if_pos hb, if_pos hb]
      exact h
    · rw [if_neg hb, if_neg hb]
      by_cases h2 : x.entry_name.getD "" ≠ ""
      · rw [if_pos h2]
        rw [if_pos (show y.entry_name.getD "" ≠ "" from by rw [← h]; exact h2)]
        exact h
      · rw [if_neg h2]
        rw [if_neg (show ¬ y.entry_name.getD "" ≠ "" from by rw [← h]; exact h2)]
        by_cases h3 : x.entry_name = none ∧ md.entry_name.getD "" ≠ ""
        · rw [if_pos h3]
          rw [if_pos (show y.entry_name = none ∧ md.entry_name.getD "" ≠ "" from by
            rw [← h]; exact h3)]
        · rw [if_neg h3]
          rw [if_neg (show ¬ (y.entry_name = none ∧ md.entry_name.getD "" ≠ "") from by
            rw [← h]; exact h3)]
          exact h

theorem fillDefaults_mirror_indep (c : Bool) (a : ArchiveState) (e : TrainingResource)
    (ims : List InstructionalMethodTerm) (els : List EducationalLevelTerm)
    (lrts : List LearningResourceTypeTerm) (fts : List FormatTerm)
    (lts : List LicenseTerm) (sts : List SubjectTerm) (kts : List KeywordTerm) :
    fillDefaults c a
      { e with
        instructional_method_terms := ims
        educational_level_terms := els
        learning_resource_type_terms := lrts
        format_terms := fts
        license_terms := lts
        subject_terms := sts
        keyword_terms := kts } = fillDefaults c a e := by
  unfold fillDefaults
  congr 1
  apply meaningful_congr
  · rw [preSteps_snd, preSteps_snd]
  · rw [preSteps_snd, preSteps_snd]
    dsimp only
    exact sync_snd_entry_name_congr a _ e rfl
  · rw [preSteps_snd, preSteps_snd]
  · rw [preSteps_snd, preSteps_snd]
  · rw [preSteps_snd, preSteps_snd]
  · rw [preSteps_snd, preSteps_snd]
  · rw [preSteps_snd, preSteps_snd]

theorem yt_url_shape (o : Option String) (r : String)
    (h : _canonicalize_youtube_url o = some r) :
    (∃ v, _YOUTUBE_VIDEO_ID_MATCH v = true ∧ r = watchUrl v) ∨ ∃ p, r = playlistUrl p := by
  unfold _canonicalize_youtube_url at h
  cases o with
  | none => exact absurd h (by simp)
  | some u =>
    dsimp only at h
    split at h
    · exact absurd h (by simp)
    · split at h
      · exact absurd h (by simp)
      · next s' heq => exact ytCore_shape s' r h

/-! ## Claims -/

/-- C3 (counterexample): the canonicalizer does not case-fold `"undefined"`,
so `_normalize_enum_list ["B","A","B","undefined","A"]` is not `["B","A"]`. -/
theorem C3_counterexample :
    _normalize_enum_list (some ["B", "A", "B", "undefined", "A"]) ≠ ["B", "A"] := by
  decide

/-- C3 (amended): the vocabulary canonicalizer de-duplicates preserving
first-seen order and drops the exact-spelling sentinel `"Undefined"` when
concrete values are present, but performs no case folding: lower-case
`"undefined"` is kept as an ordinary value, so the example input maps to
`["B","A","undefined"]`, while the same input with `"Undefined"` maps to
`["B","A"]`. -/
theorem C3_amended :
    _normalize_enum_list (some ["B", "A", "B", "undefined", "A"]) = ["B", "A", "undefined"] ∧
    _normalize_enum_list (some ["B", "A", "B", "Undefined", "A"]) = ["B", "A"] := by
  decide

/-- C4 (counterexample): a whitespace-only identifier is returned
stripped (the empty string), not unchanged. -/
theorem C4_counterexample : _canonicalize_identifier (some " ") ≠ some " " := by
  decide

/-- C4 (amended): the identifier canonicalizer maps `None` to `None` and
the empty string to itself; a whitespace-only string is stripped to the
empty string; and any input whose stripped form is not recognized as a
video-hosting URL is passed through stripped of surrounding whitespace
(hence character-for-character when the input carries none). -/
theorem C4_amended :
    _canonicalize_identifier none = none ∧
    _canonicalize_identifier (some "") = some "" ∧
    (∀ s : String, pyStrip s = "" → _canonicalize_identifier (some s) = some "") ∧
    (∀ s : String, _canonicalize_youtube_url (some (pyStrip s)) = none →
      _canonicalize_identifier (some s) = some (pyStrip s)) := by
  refine ⟨rfl, by decide, ?_, canon_passthrough⟩
  intro s h
  unfold _canonicalize_identifier
  dsimp only
  rw [if_pos h, h]

/-- C4 (witness): the amended claim applied to a whitespace-only input
and to a non-video URL. -/
theorem C4_amended_witness :
    _canonicalize_identifier (some "  ") = some "" ∧
    _canonicalize_identifier (some "http://example.com") = some (pyStrip "http://example.com") := by
  constructor
  · exact C4_amended.2.2.1 "  " (by decide)
  · exact C4_amended.2.2.2 "http://example.com" (by decide)

/-- C2 (counterexample): a relation resolved from its identifier ends
the pass with `target_resource` set and `resolution_status =
"resolved_from_identifier"`, not `"manual_reference"`. -/
theorem C2_counterexample :
    (exampleRelation.normalize false (exampleLookup 0)).target_resource ≠ none ∧
    (exampleRelation.normalize false (exampleLookup 0)).resolution_status ≠
      some "manual_reference" := by
  decide

/-- C2 (amended): if `target_resource` is set at the start of the pass,
the status becomes `manual_reference`, `target_resource` is unchanged
and no lookup is consulted (the result is independent of the lookup
outcome); after a pass, a set `target_resource` implies the status is
`manual_reference` or `resolved_from_identifier`. -/
theorem C2_amended (c : Bool) (l l' : Except String SearchResult)
    (r : TrainingResourceRelation) :
    (r.target_resource.isSome →
      ((r.normalize c l).resolution_status = some "manual_reference" ∧
       (r.normalize c l).target_resource = r.target_resource ∧
       r.normalize c l = r.normalize c l')) ∧
    ((r.normalize c l).target_resource ≠ none →
      (r.normalize c l).resolution_status = some "manual_reference" ∨
      (r.normalize c l).resolution_status = some "resolved_from_identifier") := by
  constructor
  · intro h
    refine ⟨?_, ?_, rel_normalize_no_lookup c l l' r h⟩
    · rw [rel_normalize_manual c l r h]
    · rw [rel_normalize_manual c l r h]
  · exact rel_normalize_target_inv c l r

/-- C2 (witness): the amended claim applied to a manually linked
relation and to a relation resolved from its identifier. -/
theorem C2_amended_witness :
    ((⟨none, some "x", none, none, none⟩ : TrainingResourceRelation).normalize false
        (exampleLookup 0)).resolution_status = some "manual_reference" ∧
    ((exampleRelation.normalize false (exampleLookup 0)).resolution_status =
        some "manual_reference" ∨
      (exampleRelation.normalize false (exampleLookup 0)).resolution_status =
        some "resolved_from_identifier") := by
  constructor
  · exact ((C2_amended false (exampleLookup 0) (exampleLookup 0)
      ⟨none, some "x", none, none, none⟩).1 (by decide)).1
  · exact (C2_amended false (exampleLookup 0) (exampleLookup 0) exampleRelation).2 (by decide)

/-- C5: with no manual target, a non-empty canonicalized identifier, an
authoritative context, and a lookup returning exactly one match with
entry id `E` and upload id `U`, resolution sets `target_resource` to
`../uploads/U/archive/E#/data`, the status to
`resolved_from_identifier`, and records `E` in `resolution_message`. -/
theorem C5_relation_resolution_success (r : TrainingResourceRelation)
    (E U : String) (en men : Option String)
    (htr : r.target_resource = none)
    (hid : (_canonicalize_identifier r.target_identifier).getD "" ≠ "") :
    (r.normalize false (.ok ⟨1, [⟨E, en, men, U⟩]⟩)).target_resource =
      some ("../uploads/" ++ U ++ "/archive/" ++ E ++ "#/data") ∧
    (r.normalize false (.ok ⟨1, [⟨E, en, men, U⟩]⟩)).resolution_status =
      some "resolved_from_identifier" ∧
    (r.normalize false (.ok ⟨1, [⟨E, en, men, U⟩]⟩)).resolution_message =
      some ("Resolved identifier to TrainingResource entry_id=" ++ E ++ ".") := by
  rw [rel_normalize_success _ r ⟨E, en, men, U⟩ rfl htr hid]
  exact ⟨rfl, rfl, rfl⟩

/-- C5 (witness): the success claim applied to the repository's own test
fixture (`entry1`/`upload1`). -/
theorem C5_witness :
    (exampleRelation.normalize false
        (.ok ⟨1, [⟨"entry1", none, none, "upload1"⟩]⟩)).target_resource =
      some ("../uploads/" ++ "upload1" ++ "/archive/" ++ "entry1" ++ "#/data") ∧
    (exampleRelation.normalize false
        (.ok ⟨1, [⟨"entry1", none, none, "upload1"⟩]⟩)).resolution_status =
      some "resolved_from_identifier" ∧
    (exampleRelation.normalize false
        (.ok ⟨1, [⟨"entry1", none, none, "upload1"⟩]⟩)).resolution_message =
      some ("Resolved identifier to TrainingResource entry_id=" ++ "entry1" ++ ".") :=
  C5_relation_resolution_success exampleRelation "entry1" "upload1" none none
    (by decide) (by decide)

/-- C6: a lookup failure is converted to the `error` status with the
failure detail in the message instead of propagating, and each relation
of an entry is normalized with its own lookup outcome independently of
its siblings (relation `j` of the result depends only on relation `j` of
the input and `lookup j`). -/
theorem C6_lookup_error_isolated :
    (∀ (c : Bool) (msg : String) (r : TrainingResourceRelation),
      r.target_resource = none →
      (_canonicalize_identifier r.target_identifier).getD "" ≠ "" →
      c = false →
      (r.normalize c (.error msg)).resolution_status = some "error" ∧
      (r.normalize c (.error msg)).resolution_message =
        some ("Resolution failed: " ++ msg)) ∧
    (∀ (c : Bool) (lookup : Nat → Except String SearchResult) (a : ArchiveState)
      (e : TrainingResource) (j : Nat),
      ((TrainingResource.normalize c lookup a e).2.relations).get? j =
        (e.relations.get? j).map (fun r => r.normalize c (lookup j))) := by
  constructor
  · intro c msg r htr hid hc
    rw [rel_normalize_error c msg r htr hid hc]
    exact ⟨rfl, rfl⟩
  · intro c lookup a e j
    rw [normalize_snd]
    dsimp only
    rw [normalizeRelations_get? c lookup e.relations 0 j]
    simp

/-- C6 (witness): the error conversion on a concrete failing lookup, and
sibling isolation at index 0 of the example entry. -/
theorem C6_witness :
    (exampleRelation.normalize false (.error "Connection error")).resolution_status =
      some "error" ∧
    (exampleRelation.normalize false (.error "Connection error")).resolution_message =
      some ("Resolution failed: " ++ "Connection error") ∧
    ((TrainingResource.normalize false exampleLookup exampleArchive
        exampleEntry).2.relations).get? 0 =
      (exampleEntry.relations.get? 0).map (fun r => r.normalize false (exampleLookup 0)) := by
  refine ⟨?_, ?_, ?_⟩
  · exact (C6_lookup_error_isolated.1 false "Connection error" exampleRelation
      (by decide) (by decide) rfl).1
  · exact (C6_lookup_error_isolated.1 false "Connection error" exampleRelation
      (by decide) (by decide) rfl).2
  · exact C6_lookup_error_isolated.2 false exampleLookup exampleArchive exampleEntry 0

/-- C7: the entry normalizer applies full defaulting to the six
controlled-vocabulary fields exactly when the context is authoritative
(not a client context) and the entry has meaningful content at the
decision point; full defaulting maps an empty-after-cleaning field to
`["Undefined"]`, light defaulting maps it to `[]`. -/
theorem C7_defaulting_policy (c : Bool) (lookup : Nat → Except String SearchResult)
    (a : ArchiveState) (e : TrainingResource) :
    ((TrainingResource.normalize c lookup a e).2.instructional_method =
      some (if c = false ∧
          (preSteps a e).2._has_meaningful_content_for_defaulting = true
        then _normalize_enum_list e.instructional_method
        else _normalize_enum_list_client e.instructional_method)) ∧
    ((TrainingResource.normalize c lookup a e).2.educational_level =
      some (if c = false ∧
          (preSteps a e).2._has_meaningful_content_for_defaulting = true
        then _normalize_enum_list e.educational_level
        else _normalize_enum_list_client e.educational_level)) ∧
    ((TrainingResource.normalize c lookup a e).2.learning_resource_type =
      some (if c = false ∧
          (preSteps a e).2._has_meaningful_content_for_defaulting = true
        then _normalize_enum_list e.learning_resource_type
        else _normalize_enum_list_client e.learning_resource_type)) ∧
    ((TrainingResource.normalize c lookup a e).2.format =
      some (if c = false ∧
          (preSteps a e).2._has_meaningful_content_for_defaulting = true
        then _normalize_enum_list e.format
        else _normalize_enum_list_client e.format)) ∧
    ((TrainingResource.normalize c lookup a e).2.license =
      some (if c = false ∧
          (preSteps a e).2._has_meaningful_content_for_defaulting = true
        then _normalize_enum_list e.license
        else _normalize_enum_list_client e.license)) ∧
    ((TrainingResource.normalize c lookup a e).2.subject =
      some (if c = false ∧
          (preSteps a e).2._has_meaningful_content_for_defaulting = true
        then _normalize_enum_list e.subject
        else _normalize_enum_list_client e.subject)) ∧
    _normalize_enum_list none = ["Undefined"] ∧
    _normalize_enum_list (some []) = ["Undefined"] ∧
    _normalize_enum_list_client none = [] ∧
    _normalize_enum_list_client (some []) = [] := by
  have hcond : (fillDefaults c a e = true) ↔
      (c = false ∧ (preSteps a e).2._has_meaningful_content_for_defaulting = true) := by
    unfold fillDefaults
    cases c <;> simp
  have hfield : ∀ o, policyList (fillDefaults c a e) o =
      if c = false ∧ (preSteps a e).2._has_meaningful_content_for_defaulting = true
        then _normalize_enum_list o else _normalize_enum_list_client o := by
    intro o
    unfold policyList
    exact if_congr hcond rfl rfl
  refine ⟨?_, ?_, ?_, ?_, ?_, ?_, by decide, by decide, by decide, by decide⟩ <;>
    (rw [normalize_snd]; dsimp only; rw [hfield])

/-- C9: after every normalization pass each mirror subsection holds one
wrapper record per distinct cleaned value of its canonical field, in the
field's order; the keyword mirror count equals the number of distinct
cleaned keyword values; and the resulting mirrors do not depend on the
mirror lists the entry carried before the pass (full replacement). -/
theorem C9_mirror_sync (c : Bool) (lookup : Nat → Except String SearchResult)
    (a : ArchiveState) (e : TrainingResource)
    (ims : List InstructionalMethodTerm) (els : List EducationalLevelTerm)
    (lrts : List LearningResourceTypeTerm) (fts : List FormatTerm)
    (lts : List LicenseTerm) (sts : List SubjectTerm) (kts : List KeywordTerm) :
    ((TrainingResource.normalize c lookup a e).2.instructional_method_terms =
      (_unique_clean (TrainingResource.normalize c lookup a e).2.instructional_method).map
        InstructionalMethodTerm.mk ∧
     (TrainingResource.normalize c lookup a e).2.educational_level_terms =
      (_unique_clean (TrainingResource.normalize c lookup a e).2.educational_level).map
        EducationalLevelTerm.mk ∧
     (TrainingResource.normalize c lookup a e).2.learning_resource_type_terms =
      (_unique_clean (TrainingResource.normalize c lookup a e).2.learning_resource_type).map
        LearningResourceTypeTerm.mk ∧
     (TrainingResource.normalize c lookup a e).2.format_terms =
      (_unique_clean (TrainingResource.normalize c lookup a e).2.format).map FormatTerm.mk ∧
     (TrainingResource.normalize c lookup a e).2.license_terms =
      (_unique_clean (TrainingResource.normalize c lookup a e).2.license).map LicenseTerm.mk ∧
     (TrainingResource.normalize c lookup a e).2.subject_terms =
      (_unique_clean (TrainingResource.normalize c lookup a e).2.subject).map SubjectTerm.mk ∧
     (TrainingResource.normalize c lookup a e).2.keyword_terms =
      (_unique_clean (TrainingResource.normalize c lookup a e).2.keyword).map KeywordTerm.mk ∧
     (TrainingResource.normalize c lookup a e).2.keyword_terms.length =
      (_unique_clean e.keyword).length) ∧
    (let eOld := { e with
        instructional_method_terms := ims
        educational_level_terms := els
        learning_resource_type_terms := lrts
        format_terms := fts
        license_terms := lts
        subject_terms := sts
        keyword_terms := kts }
     (TrainingResource.normalize c lookup a eOld).2.instructional_method_terms =
        (TrainingResource.normalize c lookup a e).2.instructional_method_terms ∧
     (TrainingResource.normalize c lookup a eOld).2.educational_level_terms =
        (TrainingResource.normalize c lookup a e).2.educational_level_terms ∧
     (TrainingResource.normalize c lookup a eOld).2.learning_resource_type_terms =
        (TrainingResource.normalize c lookup a e).2.learning_resource_type_terms ∧
     (TrainingResource.normalize c lookup a eOld).2.format_terms =
        (TrainingResource.normalize c lookup a e).2.format_terms ∧
     (TrainingResource.normalize c lookup a eOld).2.license_terms =
        (TrainingResource.normalize c lookup a e).2.license_terms ∧
     (TrainingResource.normalize c lookup a eOld).2.subject_terms =
        (TrainingResource.normalize c lookup a e).2.subject_terms ∧
     (TrainingResource.normalize c lookup a eOld).2.keyword_terms =
        (TrainingResource.normalize c lookup a e).2.keyword_terms) := by
  constructor
  · refine ⟨?_, ?_, ?_, ?_, ?_, ?_, ?_, ?_⟩ <;>
      (rw [normalize_snd]; dsimp only;
       try simp [_unique_clean_of_policy, _unique_clean_idem])
  · refine ⟨?_, ?_, ?_, ?_, ?_, ?_, ?_⟩ <;>
      (rw [normalize_snd, normalize_snd]; try (dsimp only; rw [fillDefaults_mirror_indep]))

/-- C1 (counterexample): on an entry whose single relation resolves from
its identifier, the first pass ends with status
`resolved_from_identifier` but the second pass, with the lookup
returning the same result, ends with status `manual_reference` — the
second run is not identical to the first. -/
theorem C1_counterexample :
    ((TrainingResource.normalize false exampleLookup exampleArchive
        exampleEntry).2.relations.map (fun r => r.resolution_status) =
      [some "resolved_from_identifier"]) ∧
    ((TrainingResource.normalize false exampleLookup
        (TrainingResource.normalize false exampleLookup exampleArchive exampleEntry).1
        (TrainingResource.normalize false exampleLookup exampleArchive
          exampleEntry).2).2.relations.map (fun r => r.resolution_status) =
      [some "manual_reference"]) ∧
    (TrainingResource.normalize false exampleLookup
        (TrainingResource.normalize false exampleLookup exampleArchive exampleEntry).1
        (TrainingResource.normalize false exampleLookup exampleArchive exampleEntry).2).2 ≠
      (TrainingResource.normalize false exampleLookup exampleArchive exampleEntry).2 := by
  decide

/-- C1 (amended): running the entry normalizer a second time with the
same lookup outcomes leaves every controlled-vocabulary field, the
keyword list and every mirror subsection identical to the first pass;
each relation keeps its `target_resource`, and its `resolution_status`
is unchanged except that a relation the first pass resolved from its
identifier (`resolved_from_identifier`) reports `manual_reference` after
the second pass. -/
theorem C1_amended_second_pass (c : Bool) (lookup : Nat → Except String SearchResult)
    (a : ArchiveState) (e : TrainingResource) :
    ((TrainingResource.normalize c lookup
        (TrainingResource.normalize c lookup a e).1
        (TrainingResource.normalize c lookup a e).2).2.instructional_method =
      (TrainingResource.normalize c lookup a e).2.instructional_method ∧
     (TrainingResource.normalize c lookup
        (TrainingResource.normalize c lookup a e).1
        (TrainingResource.normalize c lookup a e).2).2.educational_level =
      (TrainingResource.normalize c lookup a e).2.educational_level ∧
     (TrainingResource.normalize c lookup
        (TrainingResource.normalize c lookup a e).1
        (TrainingResource.normalize c lookup a e).2).2.learning_resource_type =
      (TrainingResource.normalize c lookup a e).2.learning_resource_type ∧
     (TrainingResource.normalize c lookup
        (TrainingResource.normalize c lookup a e).1
        (TrainingResource.normalize c lookup a e).2).2.format =
      (TrainingResource.normalize c lookup a e).2.format ∧
     (TrainingResource.normalize c lookup
        (TrainingResource.normalize c lookup a e).1
        (TrainingResource.normalize c lookup a e).2).2.license =
      (TrainingResource.normalize c lookup a e).2.license ∧
     (TrainingResource.normalize c lookup
        (TrainingResource.normalize c lookup a e).1
        (TrainingResource.normalize c lookup a e).2).2.subject =
      (TrainingResource.normalize c lookup a e).2.subject ∧
     (TrainingResource.normalize c lookup
        (TrainingResource.normalize c lookup a e).1
        (TrainingResource.normalize c lookup a e).2).2.keyword =
      (TrainingResource.normalize c lookup a e).2.keyword) ∧
    ((TrainingResource.normalize c lookup
        (TrainingResource.normalize c lookup a e).1
        (TrainingResource.normalize c lookup a e).2).2.instructional_method_terms =
      (TrainingResource.normalize c lookup a e).2.instructional_method_terms ∧
     (TrainingResource.normalize c lookup
        (TrainingResource.normalize c lookup a e).1
        (TrainingResource.normalize c lookup a e).2).2.educational_level_terms =
      (TrainingResource.normalize c lookup a e).2.educational_level_terms ∧
     (TrainingResource.normalize c lookup
        (TrainingResource.normalize c lookup a e).1
        (TrainingResource.normalize c lookup a e).2).2.learning_resource_type_terms =
      (TrainingResource.normalize c lookup a e).2.learning_resource_type_terms ∧
     (TrainingResource.normalize c lookup
        (TrainingResource.normalize c lookup a e).1
        (TrainingResource.normalize c lookup a e).2).2.format_terms =
      (TrainingResource.normalize c lookup a e).2.format_terms ∧
     (TrainingResource.normalize c lookup
        (TrainingResource.normalize c lookup a e).1
        (TrainingResource.normalize c lookup a e).2).2.license_terms =
      (TrainingResource.normalize c lookup a e).2.license_terms ∧
     (TrainingResource.normalize c lookup
        (TrainingResource.normalize c lookup a e).1
        (TrainingResource.normalize c lookup a e).2).2.subject_terms =
      (TrainingResource.normalize c lookup a e).2.subject_terms ∧
     (TrainingResource.normalize c lookup
        (TrainingResource.normalize c lookup a e).1
        (TrainingResource.normalize c lookup a e).2).2.keyword_terms =
      (TrainingResource.normalize c lookup a e).2.keyword_terms) ∧
    List.Forall₂
      (fun r1 r2 =>
        r2.target_resource = r1.target_resource ∧
        r2.resolution_status =
          (if r1.resolution_status = some "resolved_from_identifier"
            then some "manual_reference" else r1.resolution_status))
      (TrainingResource.normalize c lookup a e).2.relations
      (TrainingResource.normalize c lookup
        (TrainingResource.normalize c lookup a e).1
        (TrainingResource.normalize c lookup a e).2).2.relations := by
  refine ⟨⟨?_, ?_, ?_, ?_, ?_, ?_, ?_⟩ , ⟨?_, ?_, ?_, ?_, ?_, ?_, ?_⟩, ?br⟩
  case br =>
    rw [normalize_pass2_snd]
    dsimp only
    rw [normalize_snd c lookup a e]
    dsimp only
    exact normalizeRelations_pass2 c lookup e.relations 0
  all_goals rw [normalize_pass2_snd]

/-- C8: the scheme-less variant `youtu.be/dQw4w9WgXcQ` canonicalizes to
the same string as `https://www.youtube.com/watch?v=dQw4w9WgXcQ`; an
extracted video id is accepted only when it matches the 11-character
`[A-Za-z0-9_-]` pattern (every canonical video form carries a valid id);
and a URL for which the video-hosting canonicalizer yields no canonical
form falls through to the identifier pass-through path. -/
theorem C8_canonical_equivalence :
    (_canonicalize_identifier (some "youtu.be/dQw4w9WgXcQ") =
      _canonicalize_identifier (some "https://www.youtube.com/watch?v=dQw4w9WgXcQ")) ∧
    (∀ (host path : String) (qs : List (String × String)) (v : String),
      ytVideoId host path qs = some v → _YOUTUBE_VIDEO_ID_MATCH v = true) ∧
    (∀ (o : Option String) (r : String), _canonicalize_youtube_url o = some r →
      (∃ v, _YOUTUBE_VIDEO_ID_MATCH v = true ∧ r = watchUrl v) ∨ ∃ p, r = playlistUrl p) ∧
    (∀ s : String, _canonicalize_youtube_url (some (pyStrip s)) = none →
      _canonicalize_identifier (some s) = some (pyStrip s)) :=
  ⟨by decide, ytVideoId_valid, yt_url_shape, canon_passthrough⟩

/-- C8 (witness): the id-validity, canonical-shape and fall-through
parts of the claim applied at concrete inputs. -/
theorem C8_witness :
    _YOUTUBE_VIDEO_ID_MATCH "dQw4w9WgXcQ" = true ∧
    ((∃ v, _YOUTUBE_VIDEO_ID_MATCH v = true ∧
        "https://www.youtube.com/watch?v=dQw4w9WgXcQ" = watchUrl v) ∨
      ∃ p, "https://www.youtube.com/watch?v=dQw4w9WgXcQ" = playlistUrl p) ∧
    _canonicalize_identifier (some "http://example.com") = some (pyStrip "http://example.com") := by
  refine ⟨?_, ?_, ?_⟩
  · exact C8_canonical_equivalence.2.1 "youtu.be" "/dQw4w9WgXcQ" [] "dQw4w9WgXcQ" (by decide)
  · exact C8_canonical_equivalence.2.2.1 (some "youtu.be/dQw4w9WgXcQ") _ (by decide)
  · exact C8_canonical_equivalence.2.2.2 "http://example.com" (by decide)

/-- C10: on a video-hosting URL from which both a valid 11-character
video id and a playlist id are extracted, the canonicalizer returns the
video canonical form `watch?v=<id>`; the playlist canonical form is
returned only when no valid video id can be extracted. -/
theorem C10_video_id_priority :
    (∀ (u s v pl : String), pyStrip u ≠ "" → _withScheme (pyStrip u) = some s →
      (pyIn "youtube.com" (ytHost s) || pyIn "youtu.be" (ytHost s)) = true →
      ytVideoId (ytHost s) (ytPath s) (ytQs s) = some v →
      ytPlaylistId (ytQs s) = some pl →
      _canonicalize_youtube_url (some u) = some (watchUrl v)) ∧
    (∀ (u s pl : String), pyStrip u ≠ "" → _withScheme (pyStrip u) = some s →
      _canonicalize_youtube_url (some u) = some (playlistUrl pl) →
      ytVideoId (ytHost s) (ytPath s) (ytQs s) = none) := by
  constructor
  · intro u s v pl h1 h2 hfam hvid _
    rw [canon_yt_via_core u s h1 h2, ytCore_watch s v hfam hvid]
  · intro u s pl h1 h2 h3
    rw [canon_yt_via_core u s h1 h2] at h3
    exact ytCore_playlist_no_video s pl h3

/-- C10 (witness): a URL carrying both a video id and a playlist id maps
to the video form, and a playlist-form result implies no video id. -/
theorem C10_witness :
    _canonicalize_youtube_url
      (some "https://www.youtube.com/watch?v=dQw4w9WgXcQ&list=PL123") =
      some (watchUrl "dQw4w9WgXcQ") ∧
    ytVideoId (ytHost "https://www.youtube.com/playlist?list=PL123")
      (ytPath "https://www.youtube.com/playlist?list=PL123")
      (ytQs "https://www.youtube.com/playlist?list=PL123") = none := by
  constructor
  · exact C10_video_id_priority.1
      "https://www.youtube.com/watch?v=dQw4w9WgXcQ&list=PL123"
      "https://www.youtube.com/watch?v=dQw4w9WgXcQ&list=PL123"
      "dQw4w9WgXcQ" "PL123"
      (by decide) (by decide) (by decide) (by decide) (by decide)
  · exact C10_video_id_priority.2
      "https://www.youtube.com/playlist?list=PL123"
      "https://www.youtube.com/playlist?list=PL123"
      "PL123" (by decide) (by decide) (by decide)
